import Mathlib

/-!
Shallow embedding of `src/scdl/metadata_assembler.py`.

The file embeds the two components of the repository:

* the image normalizer (`get_mime_type`, `resize_image_if_needed`,
  `re_encode_cover_image` and its quality-reduction `while` loop), and
* the tag assembler (`_assemble_vorbis_tags`, the `assemble_metadata`
  handlers for FLAC, Ogg, ID3 (MP3/AIFF/WAVE) and MP4 containers).

PIL (`Image.open`, `Image.save`, `Image.convert`, `Image.MIME`) and the
mutagen serialization helpers (`flac.Picture.write`, `b64encode`) are
external libraries, not code of this repository; they are modelled as an
abstract `Codec` record passed to every function that calls into them.
The Python float constant `2.93 * 1024 * 1024` is modelled exactly over ℚ
(the double rounding error of the literal `2.93` is far below the distance
to the nearest integer byte length, so the integer comparisons agree).
-/

/-- Raw byte strings (`bytes` in Python), one `Nat` per byte. -/
abbrev Bytes := List Nat

/-- Errors raised by the image normalizer: `UnsupportedImageFormat` models a
PIL decode failure in `Image.open`, `unsupportedColorEncoding` models the
`ValueError("Unsupported MIME type: ...")` raised at the end of the mime
dispatch in `re_encode_cover_image`. -/
inductive ImgError where
  | unsupportedImageFormat
  | unsupportedColorEncoding (mime : String)
  deriving DecidableEq, Repr

deriving instance DecidableEq for Except

/-- Errors raised by `assemble_metadata`: `unsupportedContainerVariant`
models the `NotImplementedError` raised by the `singledispatch` base case
(the spec calls this error kind `UnsupportedContainerVariant`), and `image`
wraps a normalizer error escaping from an artwork step. -/
inductive AsmError where
  | unsupportedContainerVariant
  | image (e : ImgError)
  deriving DecidableEq, Repr

/-- A decoded in-memory image (a PIL `Image` object): its pixel dimensions,
the MIME string `Image.MIME[image.format]` of its detected encoding, and an
abstract identifier for its pixel content (lossy re-encoding may change the
content; the embedding never inspects it beyond equality). -/
structure DecodedImage where
  width : Nat
  height : Nat
  mime : String
  content : Nat
  deriving DecidableEq, Repr

/-- A `flac.Picture` record as built by `_get_flac_pic`: data, mime,
optional description and the picture type (3 = `COVER_FRONT`). -/
structure FlacPicture where
  data : Bytes
  mime : String
  desc : Option String
  ptype : Nat
  deriving DecidableEq, Repr

/-- The external image/serialization libraries used by the source
(PIL and mutagen helpers), abstracted as a record of functions:
`decode` is `Image.open` combined with the `Image.MIME` lookup,
`encodeJPEG` is `img.save(buffer, format='JPEG', quality=q)` returning the
buffer contents, `convertRGB` is `img.convert("RGB")`, `picSerialize` is
`flac.Picture.write`, and `b64enc` is `base64.b64encode(...).decode()`. -/
structure Codec where
  decode : Bytes → Option DecodedImage
  encodeJPEG : DecodedImage → Nat → Bytes
  convertRGB : DecodedImage → DecodedImage
  picSerialize : FlacPicture → Bytes
  b64enc : Bytes → String

/-- Well-formedness facts about the external image library that the
source relies on: saving as JPEG yields bytes that decode back to an image
of the same dimensions with MIME `image/jpeg` (JPEG is lossy, so nothing is
assumed about the pixel content), and `convert("RGB")` preserves pixel
dimensions. -/
structure Codec.Faithful (c : Codec) : Prop where
  enc_decodes : ∀ img q, ∃ img2, c.decode (c.encodeJPEG img q) = some img2 ∧
    img2.width = img.width ∧ img2.height = img.height ∧ img2.mime = "image/jpeg"
  convert_dims : ∀ img, (c.convertRGB img).width = img.width ∧
    (c.convertRGB img).height = img.height

/-- `max_data_size = 2.93 * 1024 * 1024  # 2.93MB in bytes`
(from `re_encode_cover_image`), modelled exactly over ℚ. -/
def max_data_size : ℚ := 2.93 * 1024 * 1024

/-- The comparison `len <= max_data_size` from `re_encode_cover_image`,
as a named predicate so that it can be given a `Decidable` instance that
evaluates through integer arithmetic. -/
def withinCeiling (n : Nat) : Prop := (n : ℚ) ≤ max_data_size

/-- The loop guard comparison `resized_data_size > max_data_size` from
`re_encode_cover_image`. -/
def overCeiling (n : Nat) : Prop := max_data_size < (n : ℚ)

theorem withinCeiling_iff (n : Nat) : withinCeiling n ↔ n ≤ 3072327 := by
  unfold withinCeiling max_data_size
  rw [show (2.93 : ℚ) * 1024 * 1024 = 307232768 / 100 by norm_num]
  rw [le_div_iff₀ (by norm_num : (0:ℚ) < 100)]
  rw [show ((n : ℚ) * 100) = ((n * 100 : ℕ) : ℚ) by push_cast; ring]
  rw [show ((307232768 : ℚ)) = ((307232768 : ℕ) : ℚ) by norm_num]
  rw [Nat.cast_le]
  omega

theorem overCeiling_iff (n : Nat) : overCeiling n ↔ 3072327 < n := by
  unfold overCeiling max_data_size
  rw [show (2.93 : ℚ) * 1024 * 1024 = 307232768 / 100 by norm_num]
  rw [div_lt_iff₀ (by norm_num : (0:ℚ) < 100)]
  rw [show ((n : ℚ) * 100) = ((n * 100 : ℕ) : ℚ) by push_cast; ring]
  rw [show ((307232768 : ℚ)) = ((307232768 : ℕ) : ℚ) by norm_num]
  rw [Nat.cast_lt]
  omega

instance withinCeiling.inst (n : Nat) : Decidable (withinCeiling n) :=
  decidable_of_iff (n ≤ 3072327) (withinCeiling_iff n).symm

instance overCeiling.inst (n : Nat) : Decidable (overCeiling n) :=
  decidable_of_iff (3072327 < n) (overCeiling_iff n).symm

/-- `get_mime_type(image_bytes)`: open the image and look up its MIME type;
raises (models `UnsupportedImageFormat`) when the bytes cannot be decoded. -/
def get_mime_type (codec : Codec) (image_bytes : Bytes) : Except ImgError String :=
  match codec.decode image_bytes with
  | none => .error .unsupportedImageFormat
  | some image => .ok image.mime

/-- `resize_image_if_needed(image)`: if either dimension exceeds 10000,
scale both by `min(10000/width, 10000/height)` (Python float division and
`int(...)` truncation, modelled exactly over ℚ with floor, the operands
being nonnegative) and report that a resize occurred.  The LANCZOS pixel
resampling itself is external; the abstract pixel content is carried over. -/
def resize_image_if_needed (image : DecodedImage) : DecodedImage × Bool :=
  let max_dimension : Nat := 10000
  if image.width > max_dimension ∨ image.height > max_dimension then
    let scaling_factor : ℚ :=
      min ((max_dimension : ℚ) / (image.width : ℚ)) ((max_dimension : ℚ) / (image.height : ℚ))
    let w2 := (Int.floor ((image.width : ℚ) * scaling_factor)).toNat
    let h2 := (Int.floor ((image.height : ℚ) * scaling_factor)).toNat
    ({ image with width := w2, height := h2 }, true)
  else
    (image, false)

/-- The `while resized_data_size > max_data_size and quality > 10:` loop of
`re_encode_cover_image`, recursing structurally on the quality value.
Returns the final buffer contents, the final quality, and the number of
loop iterations executed. -/
def reduce_loop (codec : Codec) (img : DecodedImage) : Nat → Bytes → Bytes × Nat × Nat
  | 0, buffer => (buffer, 0, 0)
  | q + 1, buffer =>
    if overCeiling buffer.length ∧ 10 < q + 1 then
      let buffer2 := codec.encodeJPEG img q
      let r := reduce_loop codec img q buffer2
      (r.1, r.2.1, r.2.2 + 1)
    else
      (buffer, q + 1, 0)

/-- `re_encode_cover_image(image_bytes)`: sniff the MIME type, return the
input unchanged when its byte length is within `max_data_size`, otherwise
re-open, resize if needed, re-encode as JPEG at quality 100 (85 after a
resize; PNG is first converted to RGB) and run the quality-reduction loop.
Any MIME type other than `image/jpeg` and `image/png` raises the
`ValueError` modelled by `unsupportedColorEncoding`. -/
def re_encode_cover_image (codec : Codec) (image_bytes : Bytes) : Except ImgError Bytes :=
  match get_mime_type codec image_bytes with
  | .error e => .error e
  | .ok mime_type =>
    if withinCeiling image_bytes.length then
      .ok image_bytes
    else
      match codec.decode image_bytes with
      | none => .error .unsupportedImageFormat
      | some img0 =>
        let ir := resize_image_if_needed img0
        if mime_type = "image/jpeg" then
          let quality : Nat := if ir.2 then 85 else 100
          let buffer := codec.encodeJPEG ir.1 quality
          .ok (reduce_loop codec ir.1 quality buffer).1
        else if mime_type = "image/png" then
          let img1 := codec.convertRGB ir.1
          let quality : Nat := if ir.2 then 85 else 100
          let buffer := codec.encodeJPEG img1 quality
          .ok (reduce_loop codec img1 quality buffer).1
        else
          .error (.unsupportedColorEncoding mime_type)

/-- The canonical metadata record (`MetadataInfo` dataclass):
`artist` and `title` are required, everything else is `Optional`. -/
structure MetadataInfo where
  artist : String
  title : String
  description : Option String
  genre : Option String
  artwork_url : Option String
  artwork_file : Option Bytes
  link : Option String
  created_date : Option String
  display_date : Option String
  album_title : Option String
  album_author : Option String
  album_track_num : Option Int
  tags : Option String
  uid : Option String
  track_id : Option Int
  user_id : Option Int
  album_track_count : Option Int
  album_type : Option String
  album_publish_date : Option String
  album_display_date : Option String
  album_created_date : Option String
  album_release_date : Option String
  album_link : Option String
  deriving DecidableEq, Repr

/-- A mutagen tag container viewed as a Python-dict-like association list
from string keys to values (first occurrence wins, assignment replaces in
place, deletion removes every occurrence). -/
abbrev Store (α : Type) := List (String × α)

/-- Dict lookup: value of the first entry with the given key. -/
def Store.get {α : Type} : Store α → String → Option α
  | [], _ => none
  | (k, v) :: rest, key => if key = k then some v else Store.get rest key

/-- Dict assignment `file[k] = v`: replace the first entry with key `k`,
or append a fresh entry when the key is absent. -/
def Store.set {α : Type} : Store α → String → α → Store α
  | [], k, v => [(k, v)]
  | (k0, v0) :: rest, k, v =>
    if k0 = k then (k, v) :: rest else (k0, v0) :: Store.set rest k v

/-- Dict deletion `del file[k]`: remove every entry with key `k`. -/
def Store.del {α : Type} : Store α → String → Store α
  | [], _ => []
  | (k0, v0) :: rest, k =>
    if k0 = k then Store.del rest k else (k0, v0) :: Store.del rest k

/-- Number of entries with the given key (1 for a well-formed dict key,
used to state that exactly one cover frame remains). -/
def Store.countKey {α : Type} : Store α → String → Nat
  | [], _ => 0
  | (k0, _) :: rest, k =>
    (if k0 = k then 1 else 0) + Store.countKey rest k

/-- `v if v else None` for an optional Python string (empty strings are
falsy): used for the `desc=meta.artwork_url if meta.artwork_url else None`
arguments of `_get_flac_pic` and `_get_apic`. -/
def pyStrOrNone : Option String → Option String
  | some s => if s = "" then none else some s
  | none => none

/-- `if meta.f: file[k] = g(meta.f)` for an optional string field
(Python truthiness: `None` and `""` are skipped). -/
def writeTruthyStr {α : Type} (s : Store α) (k : String) (v : Option String)
    (f : String → α) : Store α :=
  match v with
  | some x => if x = "" then s else Store.set s k (f x)
  | none => s

/-- `if meta.f is not None: file[k] = g(meta.f)` for an optional string
field (only `None` is skipped; an empty string is written). -/
def writeSomeStr {α : Type} (s : Store α) (k : String) (v : Option String)
    (f : String → α) : Store α :=
  match v with
  | some x => Store.set s k (f x)
  | none => s

/-- `if meta.f: file[k] = g(meta.f)` for an optional integer field
(Python truthiness: `None` and `0` are skipped). -/
def writeTruthyInt {α : Type} (s : Store α) (k : String) (v : Option Int)
    (f : Int → α) : Store α :=
  match v with
  | some x => if x = 0 then s else Store.set s k (f x)
  | none => s

/-- `if meta.f is not None: file[k] = g(meta.f)` for an optional integer
field (only `None` is skipped; `0` is written). -/
def writeSomeInt {α : Type} (s : Store α) (k : String) (v : Option Int)
    (f : Int → α) : Store α :=
  match v with
  | some x => Store.set s k (f x)
  | none => s

/-- A Vorbis comment value: `some s` for a string, `none` for a Python
`None` assigned verbatim (as `file["Date"] = meta.created_date` does). -/
abbrev VorbisVal := Option String

/-- An ID3 frame as constructed by the MP3/AIFF/WAVE handler (the constant
`encoding=3` argument is common to all frames and omitted). -/
inductive ID3Frame where
  | tit2 (text : String)
  | tpe1 (text : String)
  | tdrc (text : Option String)
  | woar (url : Option String)
  | tdrl (text : String)
  | comm (lang : String) (text : String)
  | tcon (text : String)
  | talb (text : String)
  | tpe2 (text : String)
  | trck (text : String)
  | apic (mime : String) (desc : Option String) (data : Bytes)
  | txxx (desc : String) (text : String)
  deriving DecidableEq, Repr

/-- An MP4 atom value: plain string, raw optional string (Python `None`
assigned verbatim, as `file["\xa9day"] = meta.created_date` does), encoded
bytes, a literal `None`, a track-number pair list, or a cover list. -/
inductive MP4Val where
  | str (s : String)
  | ostr (s : Option String)
  | bytes (b : Bytes)
  | pynone
  | trkn (pairs : List (Int × Int))
  | covr (imgs : List Bytes)
  deriving DecidableEq, Repr

/-- `str.encode()`: UTF-8 bytes of a Python string. -/
def strBytes (s : String) : Bytes := s.toUTF8.toList.map (fun b => b.toNat)

/-- The container-format variants registered on `assemble_metadata`,
plus `other` for any unregistered `FileType` (which falls through to the
`singledispatch` base case). -/
inductive Variant where
  | flac | oggOpus | oggSpeex | oggTheora | mp3 | aiff | wave | mp4
  | other (name : String)
  deriving DecidableEq, Repr

/-- The in-memory tag container: its format variant together with the
tag state each handler family mutates (Vorbis comments, FLAC picture
blocks, ID3 frames, MP4 atoms). -/
structure TagContainer where
  variant : Variant
  vorbis : Store VorbisVal
  pictures : List FlacPicture
  id3 : Store ID3Frame
  mp4 : Store MP4Val
  deriving DecidableEq, Repr

/-- A container with the given variant and no tags at all. -/
def emptyContainer (v : Variant) : TagContainer :=
  { variant := v, vorbis := [], pictures := [], id3 := [], mp4 := [] }

/-- `_assemble_vorbis_tags(file, meta)`: the Vorbis-comment writes shared
by the FLAC and Ogg handlers, in source order.  `Date` and `WWWArtist` are
written unconditionally (a `None` value is assigned verbatim); the other
fields are guarded by truthiness or `is not None` exactly as the source. -/
def _assemble_vorbis_tags (s0 : Store VorbisVal) (meta : MetadataInfo) : Store VorbisVal :=
  let s := Store.set s0 "Artist" (some meta.artist)
  let s := Store.set s "Title" (some meta.title)
  let s := Store.set s "Date" meta.created_date
  let s := Store.set s "WWWArtist" meta.link
  let s := writeTruthyStr s "Genre" meta.genre some
  let s := writeTruthyStr s "Tags" meta.tags some
  let s := writeTruthyStr s "Album" meta.album_title some
  let s := writeTruthyStr s "Albumartist" meta.album_author some
  let s := writeSomeInt s "Tracknumber" meta.album_track_num (fun n => some (toString n))
  let s := writeTruthyStr s "Description" meta.description some
  let s := writeTruthyStr s "Artwork" meta.artwork_url some
  let s := writeTruthyStr s "ReleaseTime" meta.display_date some
  let s := writeTruthyStr s "UID" meta.uid some
  let s := writeTruthyInt s "ID" meta.track_id (fun n => some (toString n))
  let s := writeTruthyInt s "ID User" meta.user_id (fun n => some (toString n))
  let s := writeTruthyStr s "RELEASETYPE" meta.album_type some
  let s := writeSomeStr s "Album Display Date" meta.album_display_date some
  let s := writeSomeStr s "Album Publish Date" meta.album_publish_date some
  let s := writeTruthyStr s "Album Creation Date" meta.album_created_date some
  let s := writeTruthyStr s "Album Release Date" meta.album_release_date some
  let s := writeTruthyStr s "WWWAlbum" meta.album_link some
  s

/-- `_get_flac_pic(image_bytes, meta)`: sniff the MIME type and build the
`flac.Picture` record (type `COVER_FRONT = 3`). -/
def _get_flac_pic (codec : Codec) (image_bytes : Bytes) (meta : MetadataInfo) :
    Except ImgError FlacPicture :=
  match get_mime_type codec image_bytes with
  | .error e => .error e
  | .ok mime_type =>
    .ok { data := image_bytes, mime := mime_type,
          desc := pyStrOrNone meta.artwork_url, ptype := 3 }

/-- `_get_apic(image_bytes, meta)`: sniff the MIME type and build the ID3
`APIC` frame. -/
def _get_apic (codec : Codec) (image_bytes : Bytes) (meta : MetadataInfo) :
    Except ImgError ID3Frame :=
  match get_mime_type codec image_bytes with
  | .error e => .error e
  | .ok mime_type =>
    .ok (.apic mime_type (pyStrOrNone meta.artwork_url) image_bytes)

/-- The FLAC handler of `assemble_metadata`: Vorbis tags, then (when
artwork bytes are truthy) `clear_pictures()` followed by `add_picture`.
The MIME sniff inside `_get_flac_pic` runs after the clear, so a sniff
failure leaves the pictures cleared and the Vorbis tags written. -/
def assemble_flac (codec : Codec) (file : TagContainer) (meta : MetadataInfo) :
    TagContainer × Option AsmError :=
  let file1 := { file with vorbis := _assemble_vorbis_tags file.vorbis meta }
  match meta.artwork_file with
  | some ab =>
    if ab = [] then (file1, none)
    else
      let file2 := { file1 with pictures := [] }
      match _get_flac_pic codec ab meta with
      | .error e => (file2, some (.image e))
      | .ok pic => ({ file2 with pictures := file2.pictures ++ [pic] }, none)
  | none => (file1, none)

/-- The Ogg handler of `assemble_metadata` (OggOpus/OggSpeex/OggTheora):
Vorbis tags, then (when artwork bytes are truthy) the artwork is passed
through `re_encode_cover_image`, wrapped in a `flac.Picture`, serialized,
base64-encoded, and stored as the `metadata_block_picture` comment. -/
def assemble_ogg (codec : Codec) (file : TagContainer) (meta : MetadataInfo) :
    TagContainer × Option AsmError :=
  let file1 := { file with vorbis := _assemble_vorbis_tags file.vorbis meta }
  match meta.artwork_file with
  | some ab =>
    if ab = [] then (file1, none)
    else
      match re_encode_cover_image codec ab with
      | .error e => (file1, some (.image e))
      | .ok reenc =>
        match _get_flac_pic codec reenc meta with
        | .error e => (file1, some (.image e))
        | .ok pic =>
          let v2 := Store.set file1.vorbis "metadata_block_picture"
            (some (codec.b64enc (codec.picSerialize pic)))
          ({ file1 with vorbis := v2 }, none)
  | none => (file1, none)

/-- The frames the ID3 handler writes before the `APIC` step, in source
order: `TIT2`/`TPE1`/`TDRC`/`WOAR` unconditionally (`TDRC` and `WOAR`
receive the raw optional value), the rest guarded as in the source. -/
def id3_base_tags (s0 : Store ID3Frame) (meta : MetadataInfo) : Store ID3Frame :=
  let s := Store.set s0 "TIT2" (.tit2 meta.title)
  let s := Store.set s "TPE1" (.tpe1 meta.artist)
  let s := Store.set s "TDRC" (.tdrc meta.created_date)
  let s := Store.set s "WOAR" (.woar meta.link)
  let s := writeTruthyStr s "TDRL" meta.display_date .tdrl
  let s := writeTruthyStr s "COMM" meta.description (fun d => .comm "ENG" d)
  let s := writeTruthyStr s "TCON" meta.genre .tcon
  let s := writeTruthyStr s "TALB" meta.album_title .talb
  let s := writeTruthyStr s "TPE2" meta.album_author .tpe2
  let s := writeSomeInt s "TRCK" meta.album_track_num (fun n => .trck (toString n))
  s

/-- The `TXXX` free-form frames the ID3 handler writes after the `APIC`
step, in source order (`Album Display Date` and `Album Publish Date` use
`is not None`, the rest truthiness, as in the source). -/
def id3_txxx_tags (s0 : Store ID3Frame) (meta : MetadataInfo) : Store ID3Frame :=
  let s := writeTruthyStr s0 "TXXX:Artwork" meta.artwork_url (fun u => .txxx "Artwork" u)
  let s := writeTruthyStr s "TXXX:Tags" meta.tags (fun t => .txxx "Tags" t)
  let s := writeTruthyStr s "TXXX:UID" meta.uid (fun u => .txxx "UID" u)
  let s := writeTruthyInt s "TXXX:ID" meta.track_id (fun n => .txxx "ID" (toString n))
  let s := writeTruthyInt s "TXXX:ID User" meta.user_id (fun n => .txxx "ID User" (toString n))
  let s := writeTruthyStr s "TXXX:ReleaseType" meta.album_type (fun t => .txxx "ReleaseType" t)
  let s := writeSomeStr s "TXXX:Album Display Date" meta.album_display_date
    (fun d => .txxx "Album Display Date" d)
  let s := writeSomeStr s "TXXX:Album Publish Date" meta.album_publish_date
    (fun d => .txxx "Album Publish Date" d)
  let s := writeTruthyStr s "TXXX:Album Creation Date" meta.album_created_date
    (fun d => .txxx "Album Creation Date" d)
  let s := writeTruthyStr s "TXXX:Album Release Date" meta.album_release_date
    (fun d => .txxx "Album Release Date" d)
  let s := writeTruthyStr s "TXXX:WWWAlbum" meta.album_link (fun l => .txxx "WWWAlbum" l)
  s

/-- The MP3/AIFF/WAVE handler of `assemble_metadata`: delete any existing
`APIC` frame, write the base frames, attach the cover (when artwork bytes
are truthy; its MIME sniff can fail, aborting before the `TXXX` frames),
then write the `TXXX` frames. -/
def assemble_id3 (codec : Codec) (file : TagContainer) (meta : MetadataInfo) :
    TagContainer × Option AsmError :=
  let s0 := file.id3
  let s0 := if (Store.get s0 "APIC").isSome then Store.del s0 "APIC" else s0
  let s1 := id3_base_tags s0 meta
  match meta.artwork_file with
  | some ab =>
    if ab = [] then ({ file with id3 := id3_txxx_tags s1 meta }, none)
    else
      match _get_apic codec ab meta with
      | .error e => ({ file with id3 := s1 }, some (.image e))
      | .ok fr => ({ file with id3 := id3_txxx_tags (Store.set s1 "APIC" fr) meta }, none)
  | none => ({ file with id3 := id3_txxx_tags s1 meta }, none)

/-- `if meta.artwork_file: file["covr"] = [mp4.MP4Cover(meta.artwork_file)]`
(Python truthiness: `None` and empty bytes are skipped). -/
def writeCovr (s : Store MP4Val) (v : Option Bytes) : Store MP4Val :=
  match v with
  | some ab => if ab = [] then s else Store.set s "covr" (.covr [ab])
  | none => s

/-- The atom writes of the MP4 handler, in source order.  `©ART`, `©nam`,
`©day` and the `WWWArtist` free-form atom are written unconditionally
(the latter two may receive a Python `None`); the rest are guarded as in
the source, with string payloads passed through `.encode()`. -/
def mp4_tags (s0 : Store MP4Val) (meta : MetadataInfo) : Store MP4Val :=
  let s := Store.set s0 "©ART" (.str meta.artist)
  let s := Store.set s "©nam" (.str meta.title)
  let s := Store.set s "©day" (.ostr meta.created_date)
  let s := Store.set s "----:com.apple.iTunes:WWWArtist"
    (match meta.link with
     | some l => if l = "" then .pynone else .bytes (strBytes l)
     | none => .pynone)
  let s := writeTruthyStr s "©cmt" meta.description .str
  let s := writeTruthyStr s "©gen" meta.genre .str
  let s := writeTruthyStr s "----:com.apple.iTunes:Tags" meta.tags (fun t => .bytes (strBytes t))
  let s := writeTruthyStr s "©alb" meta.album_title .str
  let s := writeTruthyStr s "aART" meta.album_author .str
  let s := writeSomeInt s "trkn" meta.album_track_num (fun n => .trkn [(n, 0)])
  let s := writeCovr s meta.artwork_file
  let s := writeTruthyStr s "----:com.apple.iTunes:Artwork" meta.artwork_url
    (fun u => .bytes (strBytes u))
  let s := writeTruthyStr s "----:com.apple.iTunes:ReleaseTime" meta.display_date
    (fun d => .bytes (strBytes d))
  let s := writeTruthyStr s "----:com.apple.iTunes:UID" meta.uid (fun u => .bytes (strBytes u))
  let s := writeTruthyInt s "----:com.apple.iTunes:ID" meta.track_id
    (fun n => .bytes (strBytes (toString n)))
  let s := writeTruthyInt s "----:com.apple.iTunes:ID User" meta.user_id
    (fun n => .bytes (strBytes (toString n)))
  let s := writeTruthyStr s "----:com.apple.iTunes:ReleaseType" meta.album_type
    (fun t => .bytes (strBytes t))
  let s := writeTruthyStr s "----:com.apple.iTunes:Album Display Date" meta.album_display_date
    (fun d => .bytes (strBytes d))
  let s := writeTruthyStr s "----:com.apple.iTunes:Album Publish Date" meta.album_publish_date
    (fun d => .bytes (strBytes d))
  let s := writeTruthyStr s "----:com.apple.iTunes:Album Creation Date" meta.album_created_date
    (fun d => .bytes (strBytes d))
  let s := writeTruthyStr s "----:com.apple.iTunes:Album Release Date" meta.album_release_date
    (fun d => .bytes (strBytes d))
  let s := writeTruthyStr s "----:com.apple.iTunes:WWWAlbum" meta.album_link
    (fun l => .bytes (strBytes l))
  s

/-- The MP4 handler of `assemble_metadata`: delete any existing `covr`
atom, then write the atoms (no step of this handler can fail). -/
def assemble_mp4 (file : TagContainer) (meta : MetadataInfo) :
    TagContainer × Option AsmError :=
  let s0 := file.mp4
  let s0 := if (Store.get s0 "covr").isSome then Store.del s0 "covr" else s0
  ({ file with mp4 := mp4_tags s0 meta }, none)

/-- `assemble_metadata(file, meta)`: dispatch on the container variant.
An unregistered variant falls through to the `singledispatch` base case,
which raises before touching the container; the returned container is the
state at the point the handler finished or raised. -/
def assemble_metadata (codec : Codec) (file : TagContainer) (meta : MetadataInfo) :
    TagContainer × Option AsmError :=
  match file.variant with
  | .flac => assemble_flac codec file meta
  | .oggOpus => assemble_ogg codec file meta
  | .oggSpeex => assemble_ogg codec file meta
  | .oggTheora => assemble_ogg codec file meta
  | .mp3 => assemble_id3 codec file meta
  | .aiff => assemble_id3 codec file meta
  | .wave => assemble_id3 codec file meta
  | .mp4 => assemble_mp4 file meta
  | .other _ => (file, some .unsupportedContainerVariant)

/-- A byte length at which any byte string is over the byte-size ceiling
(`bigLen > 2.93 * 1024 * 1024`); used by the example codecs below. -/
def bigLen : Nat := 3072328

/-- A concrete byte string whose length is just over the byte-size
ceiling. -/
def bigInput : Bytes := List.replicate bigLen 0

/-- Decode the image stored by `packImg` in a payload length. -/
def unpackImg (n : Nat) : DecodedImage :=
  { width := (Nat.unpair n).1, height := (Nat.unpair (Nat.unpair n).2).1,
    mime := "image/jpeg", content := (Nat.unpair (Nat.unpair n).2).2 }

/-- Pack an image into a number: dimensions are preserved, the abstract
pixel content is bumped, modelling the loss of a JPEG re-compression. -/
def packImg (img : DecodedImage) : Nat :=
  Nat.pair img.width (Nat.pair img.height (img.content + 1))

/-- An example image library whose JPEG encoder always produces a payload
over the byte-size ceiling (the payload length encodes the image).  The
byte string `[1]` decodes to a small 12000×8000 JPEG and `[3]` to a small
5×5 GIF. -/
def codecA : Codec where
  decode b :=
    if bigLen ≤ b.length then some (unpackImg (b.length - bigLen))
    else if b = [1] then some { width := 12000, height := 8000, mime := "image/jpeg", content := 0 }
    else if b = [3] then some { width := 5, height := 5, mime := "image/gif", content := 0 }
    else none
  encodeJPEG img _ := List.replicate (bigLen + packImg img) 0
  convertRGB := id
  picSerialize _ := []
  b64enc _ := ""

/-- An example image library whose JPEG encoder produces tiny payloads:
`[9, w, h, c]` encodes a w×h JPEG with content `c`; any byte string of
length at least `bigLen` decodes to a 12000×8000 JPEG. -/
def codecC : Codec where
  decode b :=
    if bigLen ≤ b.length then
      some { width := 12000, height := 8000, mime := "image/jpeg", content := 0 }
    else
      match b with
      | [9, w, h, c] => some { width := w, height := h, mime := "image/jpeg", content := c }
      | [1] => some { width := 5, height := 5, mime := "image/jpeg", content := 0 }
      | _ => none
  encodeJPEG img _ := [9, img.width, img.height, img.content]
  convertRGB := id
  picSerialize _ := []
  b64enc _ := ""

/-- An example image library under which any byte string of length at
least `bigLen` decodes to a GIF (neither JPEG nor PNG). -/
def codecD : Codec where
  decode b :=
    if bigLen ≤ b.length then some { width := 5, height := 5, mime := "image/gif", content := 0 }
    else none
  encodeJPEG _ _ := []
  convertRGB := id
  picSerialize _ := []
  b64enc _ := ""

theorem Store.get_set_self {α : Type} (s : Store α) (k : String) (v : α) :
    (Store.set s k v).get k = some v := by
  induction s with
  | nil => simp [Store.set, Store.get]
  | cons hd tl ih =>
    obtain ⟨k0, v0⟩ := hd
    by_cases h : k0 = k
    · subst h
      simp [Store.set, Store.get]
    · simp [Store.set, Store.get, h, Ne.symm h, ih]

theorem Store.get_set_ne {α : Type} (s : Store α) {k k2 : String} (v : α) (h : k2 ≠ k) :
    (Store.set s k v).get k2 = s.get k2 := by
  induction s with
  | nil => simp [Store.set, Store.get, h]
  | cons hd tl ih =>
    obtain ⟨k0, v0⟩ := hd
    by_cases h0 : k0 = k
    · subst h0
      simp [Store.set, Store.get, h]
    · simp only [Store.set, if_neg h0, Store.get, ih]

theorem Store.get_del_self {α : Type} (s : Store α) (k : String) :
    (Store.del s k).get k = none := by
  induction s with
  | nil => simp [Store.del, Store.get]
  | cons hd tl ih =>
    obtain ⟨k0, v0⟩ := hd
    by_cases h0 : k0 = k
    · simp [Store.del, h0, ih]
    · simp [Store.del, Store.get, h0, Ne.symm h0, ih]

theorem Store.get_del_ne {α : Type} (s : Store α) {k k2 : String} (h : k2 ≠ k) :
    (Store.del s k).get k2 = s.get k2 := by
  induction s with
  | nil => simp [Store.del]
  | cons hd tl ih =>
    obtain ⟨k0, v0⟩ := hd
    by_cases h0 : k0 = k
    · subst h0
      simp [Store.del, Store.get, h, ih]
    · simp only [Store.del, if_neg h0, Store.get, ih]

theorem Store.countKey_del_self {α : Type} (s : Store α) (k : String) :
    (Store.del s k).countKey k = 0 := by
  induction s with
  | nil => simp [Store.del, Store.countKey]
  | cons hd tl ih =>
    obtain ⟨k0, v0⟩ := hd
    by_cases h0 : k0 = k
    · simp [Store.del, h0, ih]
    · simp [Store.del, Store.countKey, h0, ih]

theorem Store.countKey_set_ne {α : Type} (s : Store α) {k k2 : String} (v : α) (h : k2 ≠ k) :
    (Store.set s k v).countKey k2 = s.countKey k2 := by
  induction s with
  | nil => simp [Store.set, Store.countKey, Ne.symm h]
  | cons hd tl ih =>
    obtain ⟨k0, v0⟩ := hd
    by_cases h0 : k0 = k
    · subst h0
      simp [Store.set, Store.countKey, Ne.symm h]
    · simp only [Store.set, if_neg h0, Store.countKey, ih]

theorem Store.countKey_set_of_get_none {α : Type} (s : Store α) {k : String} (v : α)
    (h : s.get k = none) : (Store.set s k v).countKey k = 1 := by
  induction s with
  | nil => simp [Store.set, Store.countKey]
  | cons hd tl ih =>
    obtain ⟨k0, v0⟩ := hd
    by_cases h0 : k0 = k
    · subst h0
      simp [Store.get] at h
    · simp only [Store.get, if_neg (Ne.symm h0)] at h
      simp only [Store.set, if_neg h0, Store.countKey, if_neg h0, ih h]

theorem Store.get_none_of_countKey_zero {α : Type} (s : Store α) {k : String}
    (h : s.countKey k = 0) : s.get k = none := by
  induction s with
  | nil => simp [Store.get]
  | cons hd tl ih =>
    obtain ⟨k0, v0⟩ := hd
    by_cases h0 : k0 = k
    · subst h0
      simp [Store.countKey] at h
    · simp only [Store.countKey, if_neg h0, if_neg h0, zero_add] at h
      simp only [Store.get, if_neg (Ne.symm h0), ih h]

theorem writeTruthyStr_eq_or {α : Type} (s : Store α) (k : String) (v : Option String)
    (f : String → α) :
    writeTruthyStr s k v f = s ∨ ∃ x, writeTruthyStr s k v f = Store.set s k (f x) := by
  cases v with
  | none => exact Or.inl rfl
  | some x =>
    by_cases h : x = ""
    · exact Or.inl (by simp [writeTruthyStr, h])
    · exact Or.inr ⟨x, by simp [writeTruthyStr, h]⟩

theorem writeSomeStr_eq_or {α : Type} (s : Store α) (k : String) (v : Option String)
    (f : String → α) :
    writeSomeStr s k v f = s ∨ ∃ x, writeSomeStr s k v f = Store.set s k (f x) := by
  cases v with
  | none => exact Or.inl rfl
  | some x => exact Or.inr ⟨x, rfl⟩

theorem writeTruthyInt_eq_or {α : Type} (s : Store α) (k : String) (v : Option Int)
    (f : Int → α) :
    writeTruthyInt s k v f = s ∨ ∃ x, writeTruthyInt s k v f = Store.set s k (f x) := by
  cases v with
  | none => exact Or.inl rfl
  | some x =>
    by_cases h : x = 0
    · exact Or.inl (by simp [writeTruthyInt, h])
    · exact Or.inr ⟨x, by simp [writeTruthyInt, h]⟩

theorem writeSomeInt_eq_or {α : Type} (s : Store α) (k : String) (v : Option Int)
    (f : Int → α) :
    writeSomeInt s k v f = s ∨ ∃ x, writeSomeInt s k v f = Store.set s k (f x) := by
  cases v with
  | none => exact Or.inl rfl
  | some x => exact Or.inr ⟨x, rfl⟩

theorem get_writeTruthyStr_ne {α : Type} (s : Store α) {k k2 : String} (v : Option String)
    (f : String → α) (h : k2 ≠ k) : (writeTruthyStr s k v f).get k2 = s.get k2 := by
  rcases writeTruthyStr_eq_or s k v f with heq | ⟨x, heq⟩ <;>
    simp [heq, Store.get_set_ne _ _ h]

theorem get_writeSomeStr_ne {α : Type} (s : Store α) {k k2 : String} (v : Option String)
    (f : String → α) (h : k2 ≠ k) : (writeSomeStr s k v f).get k2 = s.get k2 := by
  rcases writeSomeStr_eq_or s k v f with heq | ⟨x, heq⟩ <;>
    simp [heq, Store.get_set_ne _ _ h]

theorem get_writeTruthyInt_ne {α : Type} (s : Store α) {k k2 : String} (v : Option Int)
    (f : Int → α) (h : k2 ≠ k) : (writeTruthyInt s k v f).get k2 = s.get k2 := by
  rcases writeTruthyInt_eq_or s k v f with heq | ⟨x, heq⟩ <;>
    simp [heq, Store.get_set_ne _ _ h]

theorem get_writeSomeInt_ne {α : Type} (s : Store α) {k k2 : String} (v : Option Int)
    (f : Int → α) (h : k2 ≠ k) : (writeSomeInt s k v f).get k2 = s.get k2 := by
  rcases writeSomeInt_eq_or s k v f with heq | ⟨x, heq⟩ <;>
    simp [heq, Store.get_set_ne _ _ h]

theorem countKey_writeTruthyStr_ne {α : Type} (s : Store α) {k k2 : String} (v : Option String)
    (f : String → α) (h : k2 ≠ k) : (writeTruthyStr s k v f).countKey k2 = s.countKey k2 := by
  rcases writeTruthyStr_eq_or s k v f with heq | ⟨x, heq⟩ <;>
    simp [heq, Store.countKey_set_ne _ _ h]

theorem countKey_writeSomeStr_ne {α : Type} (s : Store α) {k k2 : String} (v : Option String)
    (f : String → α) (h : k2 ≠ k) : (writeSomeStr s k v f).countKey k2 = s.countKey k2 := by
  rcases writeSomeStr_eq_or s k v f with heq | ⟨x, heq⟩ <;>
    simp [heq, Store.countKey_set_ne _ _ h]

theorem countKey_writeTruthyInt_ne {α : Type} (s : Store α) {k k2 : String} (v : Option Int)
    (f : Int → α) (h : k2 ≠ k) : (writeTruthyInt s k v f).countKey k2 = s.countKey k2 := by
  rcases writeTruthyInt_eq_or s k v f with heq | ⟨x, heq⟩ <;>
    simp [heq, Store.countKey_set_ne _ _ h]

theorem countKey_writeSomeInt_ne {α : Type} (s : Store α) {k k2 : String} (v : Option Int)
    (f : Int → α) (h : k2 ≠ k) : (writeSomeInt s k v f).countKey k2 = s.countKey k2 := by
  rcases writeSomeInt_eq_or s k v f with heq | ⟨x, heq⟩ <;>
    simp [heq, Store.countKey_set_ne _ _ h]

theorem reduce_loop_spec (codec : Codec) (img : DecodedImage) :
    ∀ (q : Nat) (buffer : Bytes), 10 ≤ q →
      (reduce_loop codec img q buffer).2.1 = q - (reduce_loop codec img q buffer).2.2 ∧
      (reduce_loop codec img q buffer).2.2 ≤ q - 10 ∧
      10 ≤ (reduce_loop codec img q buffer).2.1 ∧
      (withinCeiling (reduce_loop codec img q buffer).1.length ∨
        (reduce_loop codec img q buffer).2.1 = 10) := by
  intro q
  induction q with
  | zero => intro buffer h; omega
  | succ q ih =>
    intro buffer h
    by_cases hg : overCeiling buffer.length ∧ 10 < q + 1
    · by_cases hq : 10 ≤ q
      · have := ih (codec.encodeJPEG img q) hq
        simp only [reduce_loop, if_pos hg]
        exact ⟨by omega, by omega, by omega, this.2.2.2⟩
      · omega
    · simp only [reduce_loop, if_neg hg]
      refine ⟨by omega, by omega, by omega, ?_⟩
      rcases not_and_or.mp hg with h1 | h2
      · exact Or.inl (le_of_not_lt h1)
      · exact Or.inr (by omega)

theorem reduce_loop_result (codec : Codec) (img : DecodedImage) :
    ∀ (q : Nat) (buffer : Bytes),
      (reduce_loop codec img q buffer).1 = buffer ∨
      ∃ q2, (reduce_loop codec img q buffer).1 = codec.encodeJPEG img q2 := by
  intro q
  induction q with
  | zero => intro buffer; exact Or.inl rfl
  | succ q ih =>
    intro buffer
    by_cases hg : overCeiling buffer.length ∧ 10 < q + 1
    · simp only [reduce_loop, if_pos hg]
      rcases ih (codec.encodeJPEG img q) with h2 | ⟨q2, h2⟩
      · exact Or.inr ⟨q, h2⟩
      · exact Or.inr ⟨q2, h2⟩
    · simp only [reduce_loop, if_neg hg]
      exact Or.inl trivial

theorem reduce_loop_allbig (codec : Codec) (img : DecodedImage)
    (hbig : ∀ q2, ¬ withinCeiling (codec.encodeJPEG img q2).length) :
    ∀ (q : Nat) (buffer : Bytes), 10 ≤ q → ¬ withinCeiling buffer.length →
      reduce_loop codec img q buffer =
        (if q = 10 then buffer else codec.encodeJPEG img 10, 10, q - 10) := by
  intro q
  induction q with
  | zero => intro buffer h; omega
  | succ q ih =>
    intro buffer h hb
    have hover : overCeiling buffer.length := lt_of_not_le hb
    by_cases hq : 10 ≤ q
    · have hrec := ih (codec.encodeJPEG img q) hq (hbig q)
      simp only [reduce_loop, if_pos (And.intro hover (by omega : 10 < q + 1)), hrec]
      by_cases hq10 : q = 10
      · subst hq10
        simp
      · simp only [if_neg hq10, if_neg (by omega : ¬ q + 1 = 10)]
        rw [Nat.succ_sub hq]
    · have hq10 : q + 1 = 10 := by omega
      have hng : ¬ (overCeiling buffer.length ∧ 10 < q + 1) := by
        intro hc
        omega
      simp only [reduce_loop, if_neg hng, hq10]
      simp

theorem floor_scale_le (w : Nat) (f : ℚ) (hf : f ≤ 10000 / (w : ℚ)) :
    (Int.floor ((w : ℚ) * f)).toNat ≤ 10000 := by
  rcases Nat.eq_zero_or_pos w with h0 | hpos
  · subst h0
    simp
  · have hwq : (0 : ℚ) < (w : ℚ) := by exact_mod_cast hpos
    have h1 : (w : ℚ) * f ≤ (w : ℚ) * (10000 / (w : ℚ)) :=
      mul_le_mul_of_nonneg_left hf (le_of_lt hwq)
    have h2 : (w : ℚ) * (10000 / (w : ℚ)) = 10000 := by
      field_simp
    have h3 : ((Int.floor ((w : ℚ) * f) : ℤ) : ℚ) ≤ 10000 :=
      le_trans (Int.floor_le _) (by rw [h2] at h1; exact h1)
    have h4 : Int.floor ((w : ℚ) * f) ≤ 10000 := by exact_mod_cast h3
    omega

theorem resize_dims_le (image : DecodedImage) :
    (resize_image_if_needed image).1.width ≤ 10000 ∧
    (resize_image_if_needed image).1.height ≤ 10000 := by
  unfold resize_image_if_needed
  by_cases hg : image.width > 10000 ∨ image.height > 10000
  · simp only [if_pos hg, Nat.cast_ofNat]
    exact ⟨floor_scale_le _ _ (min_le_left _ _), floor_scale_le _ _ (min_le_right _ _)⟩
  · simp only [if_neg hg]
    push_neg at hg
    exact ⟨hg.1, hg.2⟩

theorem codecA_faithful : Codec.Faithful codecA := by
  constructor
  · intro img q
    refine ⟨unpackImg (packImg img), ?_, ?_, ?_, rfl⟩
    · show codecA.decode (List.replicate (bigLen + packImg img) 0) = _
      simp [codecA, List.length_replicate, Nat.le_add_right, Nat.add_sub_cancel_left]
    · simp [unpackImg, packImg, Nat.unpair_pair]
    · simp [unpackImg, packImg, Nat.unpair_pair]
  · intro img
    exact ⟨rfl, rfl⟩

theorem codecC_faithful : Codec.Faithful codecC := by
  constructor
  · intro img q
    refine ⟨{ width := img.width, height := img.height, mime := "image/jpeg",
              content := img.content }, ?_, rfl, rfl, rfl⟩
    show codecC.decode [9, img.width, img.height, img.content] = _
    simp [codecC, bigLen]
  · intro img
    exact ⟨rfl, rfl⟩

theorem re_encode_ok_cases (codec : Codec) (b o : Bytes)
    (hok : re_encode_cover_image codec b = .ok o) :
    ∃ img0, codec.decode b = some img0 ∧
      ((withinCeiling b.length ∧ o = b) ∨
       (¬ withinCeiling b.length ∧
         ∃ img1 q2, (img1 = (resize_image_if_needed img0).1 ∨
                     img1 = codec.convertRGB (resize_image_if_needed img0).1) ∧
           o = codec.encodeJPEG img1 q2)) := by
  unfold re_encode_cover_image get_mime_type at hok
  cases hdb : codec.decode b with
  | none =>
    simp only [hdb] at hok
    exact absurd hok (fun h => Except.noConfusion h)
  | some img0 =>
    refine ⟨img0, rfl, ?_⟩
    simp only [hdb] at hok
    by_cases hwc : withinCeiling b.length
    · rw [if_pos hwc] at hok
      injection hok with h
      exact Or.inl ⟨hwc, h.symm⟩
    · rw [if_neg hwc] at hok
      refine Or.inr ⟨hwc, ?_⟩
      by_cases hj : img0.mime = "image/jpeg"
      · rw [if_pos hj] at hok
        injection hok with h
        rcases reduce_loop_result codec (resize_image_if_needed img0).1
            (if (resize_image_if_needed img0).2 then 85 else 100)
            (codec.encodeJPEG (resize_image_if_needed img0).1
              (if (resize_image_if_needed img0).2 then 85 else 100)) with h2 | ⟨q2, h2⟩
        · exact ⟨(resize_image_if_needed img0).1, _, Or.inl rfl, by rw [← h, h2]⟩
        · exact ⟨(resize_image_if_needed img0).1, q2, Or.inl rfl, by rw [← h, h2]⟩
      · rw [if_neg hj] at hok
        by_cases hp : img0.mime = "image/png"
        · rw [if_pos hp] at hok
          injection hok with h
          rcases reduce_loop_result codec (codec.convertRGB (resize_image_if_needed img0).1)
              (if (resize_image_if_needed img0).2 then 85 else 100)
              (codec.encodeJPEG (codec.convertRGB (resize_image_if_needed img0).1)
                (if (resize_image_if_needed img0).2 then 85 else 100)) with h2 | ⟨q2, h2⟩
          · exact ⟨codec.convertRGB (resize_image_if_needed img0).1, _, Or.inr rfl,
              by rw [← h, h2]⟩
          · exact ⟨codec.convertRGB (resize_image_if_needed img0).1, q2, Or.inr rfl,
              by rw [← h, h2]⟩
        · rw [if_neg hp] at hok
          exact absurd hok (by simp)

theorem resize_12000 :
    resize_image_if_needed { width := 12000, height := 8000, mime := "image/jpeg", content := 0 }
      = ({ width := 10000, height := 6666, mime := "image/jpeg", content := 0 }, true) := by
  simp only [resize_image_if_needed]
  rw [if_pos (by decide : (12000 : ℕ) > 10000 ∨ (8000 : ℕ) > 10000)]
  simp only [Nat.cast_ofNat]
  rw [show min ((10000 : ℚ) / 12000) ((10000 : ℚ) / 8000) = 5/6 from by
    rw [min_eq_left (by norm_num)]; norm_num]
  rw [show (12000 : ℚ) * (5/6) = ((10000 : ℤ) : ℚ) from by norm_num]
  rw [show (8000 : ℚ) * (5/6) = ((20000 : ℤ) : ℚ) / ((3 : ℕ) : ℚ) from by norm_num]
  rw [Int.floor_intCast, Rat.floor_intCast_div_natCast]
  decide

theorem bigInput_length : bigInput.length = bigLen := by
  simp [bigInput]

theorem bigInput_not_within : ¬ withinCeiling bigInput.length := by
  rw [bigInput_length]
  decide

theorem codecC_decode_big (b : Bytes) (h : bigLen ≤ b.length) :
    codecC.decode b = some { width := 12000, height := 8000, mime := "image/jpeg", content := 0 } := by
  simp only [codecC]
  rw [if_pos h]

theorem codecA_decode_big (b : Bytes) (h : bigLen ≤ b.length) :
    codecA.decode b = some (unpackImg (b.length - bigLen)) := by
  simp only [codecA]
  rw [if_pos h]

theorem codecD_decode_big (b : Bytes) (h : bigLen ≤ b.length) :
    codecD.decode b = some { width := 5, height := 5, mime := "image/gif", content := 0 } := by
  simp only [codecD]
  rw [if_pos h]

theorem re_encode_over_jpeg (codec : Codec) (b : Bytes) (img0 : DecodedImage)
    (hdec : codec.decode b = some img0)
    (hover : ¬ withinCeiling b.length)
    (hj : img0.mime = "image/jpeg") :
    re_encode_cover_image codec b =
      .ok (reduce_loop codec (resize_image_if_needed img0).1
        (if (resize_image_if_needed img0).2 then 85 else 100)
        (codec.encodeJPEG (resize_image_if_needed img0).1
          (if (resize_image_if_needed img0).2 then 85 else 100))).1 := by
  unfold re_encode_cover_image get_mime_type
  simp only [hdec]
  rw [if_neg hover, if_pos hj]

/-- C2: for every decodable image input whose byte length is within the
byte-size ceiling `maxByteSize = 2.93 * 1024 * 1024`, `re_encode_cover_image`
returns the input bytes unchanged (byte-identical), regardless of the
image's pixel dimensions and regardless of its encoding. -/
theorem C2_within_ceiling_returns_input (codec : Codec) (b : Bytes) (img : DecodedImage)
    (hdec : codec.decode b = some img) (hlen : (b.length : ℚ) ≤ max_data_size) :
    re_encode_cover_image codec b = .ok b := by
  unfold re_encode_cover_image get_mime_type
  simp only [hdec]
  rw [if_pos (show withinCeiling b.length from hlen)]

/-- C2 witness: a concrete decodable one-byte input (a 12000×8000 JPEG
under `codecA`) is within the ceiling and is returned unchanged. -/
theorem C2_within_ceiling_returns_input_witness :
    codecA.decode [1] = some { width := 12000, height := 8000, mime := "image/jpeg", content := 0 } ∧
    (([1] : Bytes).length : ℚ) ≤ max_data_size ∧
    re_encode_cover_image codecA [1] = .ok [1] := by
  have h1 : codecA.decode [1] =
      some { width := 12000, height := 8000, mime := "image/jpeg", content := 0 } := by decide
  have h2 : (([1] : Bytes).length : ℚ) ≤ max_data_size :=
    (show withinCeiling ([1] : Bytes).length by decide)
  exact ⟨h1, h2, C2_within_ceiling_returns_input codecA [1] _ h1 h2⟩

/-- C1 counterexample: under the faithful example library `codecA`, the
one-byte input `[1]` decodes to a 12000×8000 JPEG; its byte length is
within the byte-size ceiling, so `re_encode_cover_image` returns it
unchanged, and the output's decoded width 12000 exceeds `maxDimension =
10000` — refuting the claim that the output always satisfies the
dimension bound regardless of the input byte length. -/
theorem C1_counterexample :
    Codec.Faithful codecA ∧
    re_encode_cover_image codecA [1] = .ok [1] ∧
    codecA.decode [1] = some { width := 12000, height := 8000, mime := "image/jpeg", content := 0 } ∧
    ¬ (12000 ≤ 10000) :=
  ⟨codecA_faithful, by decide, by decide, by decide⟩

/-- C1 (amended): for every input whose byte length exceeds the byte-size
ceiling (so that re-encoding actually runs), the output of
`re_encode_cover_image` decodes to an image with width ≤ 10000 and
height ≤ 10000; inputs within the ceiling are returned unchanged and may
keep oversized dimensions. -/
theorem C1_amended_dims_bounded_when_over_ceiling (codec : Codec) (hc : Codec.Faithful codec)
    (b o : Bytes) (img2 : DecodedImage)
    (hover : ¬ ((b.length : ℚ) ≤ max_data_size))
    (hok : re_encode_cover_image codec b = .ok o)
    (hdec : codec.decode o = some img2) :
    img2.width ≤ 10000 ∧ img2.height ≤ 10000 := by
  obtain ⟨img0, hdb, hcases⟩ := re_encode_ok_cases codec b o hok
  rcases hcases with ⟨hwc, rfl⟩ | ⟨hwc, img1, q2, himg1, rfl⟩
  · exact absurd hwc hover
  · obtain ⟨img3, hdec2, hw, hh, hm⟩ := hc.enc_decodes img1 q2
    rw [hdec] at hdec2
    injection hdec2 with h3
    subst h3
    rcases himg1 with h1 | h1
    · subst h1
      rw [hw, hh]
      exact resize_dims_le img0
    · subst h1
      rw [hw, hh, (hc.convert_dims _).1, (hc.convert_dims _).2]
      exact resize_dims_le img0

/-- C1 amended witness: a concrete over-ceiling input under the faithful
small-payload library `codecC`: the 12000×8000 JPEG is resized to
10000×6666 and re-encoded, and the output decodes within both bounds. -/
theorem C1_amended_witness :
    re_encode_cover_image codecC bigInput = .ok [9, 10000, 6666, 0] ∧
    codecC.decode [9, 10000, 6666, 0] =
      some { width := 10000, height := 6666, mime := "image/jpeg", content := 0 } ∧
    (10000 ≤ 10000 ∧ 6666 ≤ 10000) := by
  have hd : codecC.decode bigInput =
      some { width := 12000, height := 8000, mime := "image/jpeg", content := 0 } :=
    codecC_decode_big bigInput (by rw [bigInput_length])
  have hok : re_encode_cover_image codecC bigInput = .ok [9, 10000, 6666, 0] := by
    have h1 := re_encode_over_jpeg codecC bigInput _ hd bigInput_not_within rfl
    rw [resize_12000] at h1
    rw [h1]
    decide
  have hdec : codecC.decode [9, 10000, 6666, 0] =
      some { width := 10000, height := 6666, mime := "image/jpeg", content := 0 } := by decide
  exact ⟨hok, hdec, C1_amended_dims_bounded_when_over_ceiling codecC codecC_faithful
    bigInput _ _ bigInput_not_within hok hdec⟩

/-- C6 counterexample: under `codecA` the input `[3]` decodes to a GIF
(neither of the two supported encodings), yet because its byte length is
within the byte-size ceiling `re_encode_cover_image` returns it unchanged
instead of failing with `unsupportedColorEncoding` — refuting the claim
that all unsupported-encoding inputs fail, including within-ceiling ones. -/
theorem C6_counterexample :
    codecA.decode [3] = some { width := 5, height := 5, mime := "image/gif", content := 0 } ∧
    (([3] : Bytes).length : ℚ) ≤ max_data_size ∧
    re_encode_cover_image codecA [3] = .ok [3] ∧
    re_encode_cover_image codecA [3] ≠ .error (.unsupportedColorEncoding "image/gif") := by
  refine ⟨by decide, show withinCeiling ([3] : Bytes).length by decide, by decide, by decide⟩

/-- C6 (amended): `re_encode_cover_image` fails with
`unsupportedColorEncoding` exactly on the decodable inputs whose detected
encoding is neither JPEG nor PNG **and** whose byte length exceeds the
byte-size ceiling; within-ceiling inputs are returned unchanged regardless
of their encoding. -/
theorem C6_amended_rejected_only_over_ceiling (codec : Codec) (b : Bytes) (img : DecodedImage)
    (hdec : codec.decode b = some img)
    (hover : ¬ ((b.length : ℚ) ≤ max_data_size))
    (hj : img.mime ≠ "image/jpeg") (hp : img.mime ≠ "image/png") :
    re_encode_cover_image codec b = .error (.unsupportedColorEncoding img.mime) := by
  unfold re_encode_cover_image get_mime_type
  simp only [hdec]
  rw [if_neg (show ¬ withinCeiling b.length from hover), if_neg hj, if_neg hp]

/-- C6 amended witness: a concrete over-ceiling GIF input under `codecD`
is rejected with `unsupportedColorEncoding "image/gif"`. -/
theorem C6_amended_witness :
    codecD.decode bigInput = some { width := 5, height := 5, mime := "image/gif", content := 0 } ∧
    ¬ ((bigInput.length : ℚ) ≤ max_data_size) ∧
    re_encode_cover_image codecD bigInput = .error (.unsupportedColorEncoding "image/gif") := by
  have hd := codecD_decode_big bigInput (by rw [bigInput_length])
  exact ⟨hd, bigInput_not_within,
    C6_amended_rejected_only_over_ceiling codecD bigInput _ hd bigInput_not_within
      (by decide) (by decide)⟩

/-- C8: the quality-reduction loop of `re_encode_cover_image` is a total
function (it always terminates), executes at most 90 iterations, never
lets the quality drop below the floor 10, decrements the quality by
exactly one per iteration (final quality = start − iterations), and
exits only when the encoded size fits the ceiling or the quality has
reached 10 — for both start values the source uses (100, or 85 after a
resize). -/
theorem C8_loop_bounded (codec : Codec) (img : DecodedImage) (q : Nat) (buffer : Bytes)
    (hq : q = 100 ∨ q = 85) :
    (reduce_loop codec img q buffer).2.2 ≤ 90 ∧
    (reduce_loop codec img q buffer).2.1 = q - (reduce_loop codec img q buffer).2.2 ∧
    10 ≤ (reduce_loop codec img q buffer).2.1 ∧
    (withinCeiling (reduce_loop codec img q buffer).1.length ∨
      (reduce_loop codec img q buffer).2.1 = 10) := by
  have h10 : 10 ≤ q := by rcases hq with h | h <;> omega
  obtain ⟨h1, h2, h3, h4⟩ := reduce_loop_spec codec img q buffer h10
  refine ⟨?_, h1, h3, h4⟩
  rcases hq with h | h <;> omega

/-- A small 5×5 JPEG image used by concrete witnesses. -/
def img5 : DecodedImage := { width := 5, height := 5, mime := "image/jpeg", content := 0 }

/-- C8 witness: the loop run from quality 100 on a buffer that already
fits the ceiling exits at once, satisfying all the bounds. -/
theorem C8_loop_bounded_witness :
    ((100 : Nat) = 100 ∨ (100 : Nat) = 85) ∧
    ((reduce_loop codecC img5 100 [9, 5, 5, 0]).2.2 ≤ 90 ∧
     (reduce_loop codecC img5 100 [9, 5, 5, 0]).2.1 =
       100 - (reduce_loop codecC img5 100 [9, 5, 5, 0]).2.2 ∧
     10 ≤ (reduce_loop codecC img5 100 [9, 5, 5, 0]).2.1 ∧
     (withinCeiling (reduce_loop codecC img5 100 [9, 5, 5, 0]).1.length ∨
      (reduce_loop codecC img5 100 [9, 5, 5, 0]).2.1 = 10)) :=
  ⟨Or.inl rfl, C8_loop_bounded codecC img5 100 [9, 5, 5, 0] (Or.inl rfl)⟩

/-- The 0×0 JPEG image that `bigInput` decodes to under `codecA`. -/
def imgZ : DecodedImage := { width := 0, height := 0, mime := "image/jpeg", content := 0 }

/-- The image `codecA` re-extracts from the first re-encoded output:
same dimensions, degraded pixel content. -/
def imgZ1 : DecodedImage := { width := 0, height := 0, mime := "image/jpeg", content := 1 }

theorem codecA_allbig (img : DecodedImage) :
    ∀ q2, ¬ withinCeiling (codecA.encodeJPEG img q2).length := by
  intro q2
  simp only [codecA, List.length_replicate]
  intro h
  rw [withinCeiling_iff] at h
  simp only [bigLen] at h
  omega

theorem codecA_run_from (b : Bytes) (img : DecodedImage)
    (hdec : codecA.decode b = some img)
    (hover : ¬ withinCeiling b.length)
    (hj : img.mime = "image/jpeg")
    (hnr : resize_image_if_needed img = (img, false)) :
    re_encode_cover_image codecA b = .ok (codecA.encodeJPEG img 10) := by
  have h1 := re_encode_over_jpeg codecA b img hdec hover hj
  rw [hnr] at h1
  simp only [] at h1
  rw [if_neg (by decide : ¬ (false = true))] at h1
  rw [reduce_loop_allbig codecA img (codecA_allbig img) 100 _ (by omega)
    (codecA_allbig img 100)] at h1
  simpa using h1

theorem first_run : re_encode_cover_image codecA bigInput = .ok (List.replicate (bigLen + 1) 0) := by
  have hd1 : codecA.decode bigInput = some imgZ := by
    rw [codecA_decode_big bigInput (by rw [bigInput_length]), bigInput_length, Nat.sub_self]
    decide
  have h := codecA_run_from bigInput imgZ hd1 bigInput_not_within rfl (by decide)
  rw [h]
  show Except.ok (List.replicate (bigLen + packImg imgZ) 0) = _
  rw [show packImg imgZ = 1 from by decide]

theorem second_run : re_encode_cover_image codecA (List.replicate (bigLen + 1) 0) =
    .ok (List.replicate (bigLen + 16) 0) := by
  have hlen : (List.replicate (bigLen + 1) (0 : Nat)).length = bigLen + 1 :=
    List.length_replicate _ _
  have hd2 : codecA.decode (List.replicate (bigLen + 1) 0) = some imgZ1 := by
    rw [codecA_decode_big _ (by rw [hlen]; omega), hlen, Nat.add_sub_cancel_left]
    decide
  have hover2 : ¬ withinCeiling (List.replicate (bigLen + 1) (0 : Nat)).length := by
    rw [hlen]
    decide
  have h := codecA_run_from _ imgZ1 hd2 hover2 rfl (by decide)
  rw [h]
  show Except.ok (List.replicate (bigLen + packImg imgZ1) 0) = _
  rw [show packImg imgZ1 = 16 from by decide]

/-- C3 counterexample: under the faithful library `codecA` (whose encoder
output always stays over the byte-size ceiling, so the quality floor is
reached — the best-effort case), re-normalizing the normalizer's own
output yields different bytes: `normalize(normalize(b)) ≠ normalize(b)`. -/
theorem C3_counterexample :
    Codec.Faithful codecA ∧
    re_encode_cover_image codecA bigInput = .ok (List.replicate (bigLen + 1) 0) ∧
    ¬ withinCeiling (List.replicate (bigLen + 1) (0 : Nat)).length ∧
    re_encode_cover_image codecA (List.replicate (bigLen + 1) 0) =
      .ok (List.replicate (bigLen + 16) 0) ∧
    List.replicate (bigLen + 16) (0 : Nat) ≠ List.replicate (bigLen + 1) 0 := by
  refine ⟨codecA_faithful, first_run, ?_, second_run, ?_⟩
  · rw [List.length_replicate]
    decide
  · intro h
    have := congrArg List.length h
    rw [List.length_replicate, List.length_replicate] at this
    omega

/-- C3 (amended): `re_encode_cover_image` is idempotent on every input
whose output byte length is within the byte-size ceiling — in particular
whenever the input passed through unchanged or the quality-reduction
search met the ceiling.  In the best-effort case (quality floor reached
while still over the ceiling) idempotence is not guaranteed. -/
theorem C3_amended_idempotent_within_ceiling (codec : Codec) (hc : Codec.Faithful codec)
    (b o : Bytes) (hok : re_encode_cover_image codec b = .ok o)
    (hlen : (o.length : ℚ) ≤ max_data_size) :
    re_encode_cover_image codec o = .ok o := by
  obtain ⟨img0, hdb, hcases⟩ := re_encode_ok_cases codec b o hok
  have hdec : ∃ img2, codec.decode o = some img2 := by
    rcases hcases with ⟨hwc, rfl⟩ | ⟨hwc, img1, q2, himg1, rfl⟩
    · exact ⟨img0, hdb⟩
    · obtain ⟨img2, h2, -⟩ := hc.enc_decodes img1 q2
      exact ⟨img2, h2⟩
  obtain ⟨img2, h2⟩ := hdec
  unfold re_encode_cover_image get_mime_type
  simp only [h2]
  rw [if_pos (show withinCeiling o.length from hlen)]

/-- C3 amended witness: the within-ceiling input `[1]` under `codecC`
passes through unchanged and re-normalizing its output returns it again. -/
theorem C3_amended_witness :
    (([1] : Bytes).length : ℚ) ≤ max_data_size ∧
    re_encode_cover_image codecC [1] = .ok [1] := by
  have hok : re_encode_cover_image codecC [1] = .ok [1] := by decide
  have hlen : (([1] : Bytes).length : ℚ) ≤ max_data_size :=
    show withinCeiling ([1] : Bytes).length by decide
  exact ⟨hlen, C3_amended_idempotent_within_ceiling codecC codecC_faithful [1] [1] hok hlen⟩

theorem writeTruthyStr_none {α : Type} (s : Store α) (k : String) (f : String → α) :
    writeTruthyStr s k none f = s := rfl

theorem writeSomeStr_none {α : Type} (s : Store α) (k : String) (f : String → α) :
    writeSomeStr s k none f = s := rfl

theorem writeTruthyInt_none {α : Type} (s : Store α) (k : String) (f : Int → α) :
    writeTruthyInt s k none f = s := rfl

theorem writeSomeInt_none {α : Type} (s : Store α) (k : String) (f : Int → α) :
    writeSomeInt s k none f = s := rfl

theorem writeCovr_none (s : Store MP4Val) : writeCovr s none = s := rfl

theorem writeCovr_eq_or (s : Store MP4Val) (v : Option Bytes) :
    writeCovr s v = s ∨ ∃ ab, writeCovr s v = Store.set s "covr" (.covr [ab]) := by
  cases v with
  | none => exact Or.inl rfl
  | some ab =>
    by_cases h : ab = []
    · exact Or.inl (by simp [writeCovr, h])
    · exact Or.inr ⟨ab, by simp [writeCovr, h]⟩

theorem get_writeCovr_ne (s : Store MP4Val) {k2 : String} (v : Option Bytes)
    (h : k2 ≠ "covr") : (writeCovr s v).get k2 = s.get k2 := by
  rcases writeCovr_eq_or s v with heq | ⟨ab, heq⟩ <;>
    simp [heq, Store.get_set_ne _ _ h]

theorem countKey_writeCovr_ne (s : Store MP4Val) {k2 : String} (v : Option Bytes)
    (h : k2 ≠ "covr") : (writeCovr s v).countKey k2 = s.countKey k2 := by
  rcases writeCovr_eq_or s v with heq | ⟨ab, heq⟩ <;>
    simp [heq, Store.countKey_set_ne _ _ h]

theorem assemble_flac_vorbis (codec : Codec) (file : TagContainer) (meta : MetadataInfo) :
    (assemble_flac codec file meta).1.vorbis = _assemble_vorbis_tags file.vorbis meta := by
  unfold assemble_flac
  cases hart : meta.artwork_file with
  | none => rfl
  | some ab =>
    by_cases hab : ab = []
    · simp [hab]
    · simp only [if_neg hab]
      cases hap : _get_flac_pic codec ab meta <;> rfl

theorem assemble_flac_pictures_no_artwork (codec : Codec) (file : TagContainer)
    (meta : MetadataInfo) (h : meta.artwork_file = none) :
    (assemble_flac codec file meta).1.pictures = file.pictures := by
  unfold assemble_flac
  simp [h]

theorem assemble_id3_empty_shape (codec : Codec) (v : Variant) (meta : MetadataInfo) :
    (assemble_id3 codec (emptyContainer v) meta).1.id3 =
      id3_txxx_tags (id3_base_tags [] meta) meta ∨
    (∃ fr, (assemble_id3 codec (emptyContainer v) meta).1.id3 =
      id3_txxx_tags (Store.set (id3_base_tags [] meta) "APIC" fr) meta) ∨
    (assemble_id3 codec (emptyContainer v) meta).1.id3 = id3_base_tags [] meta := by
  unfold assemble_id3
  cases hart : meta.artwork_file with
  | none => left; simp [emptyContainer, Store.get]
  | some ab =>
    by_cases hab : ab = []
    · left
      simp [hab, emptyContainer, Store.get]
    · cases hap : _get_apic codec ab meta with
      | error e =>
        right; right
        simp [hab, hap, emptyContainer, Store.get]
      | ok fr =>
        right; left
        exact ⟨fr, by simp [hab, hap, emptyContainer, Store.get]⟩

theorem assemble_id3_empty_no_artwork (codec : Codec) (v : Variant) (meta : MetadataInfo)
    (h : meta.artwork_file = none) :
    (assemble_id3 codec (emptyContainer v) meta).1.id3 =
      id3_txxx_tags (id3_base_tags [] meta) meta := by
  unfold assemble_id3
  simp [h, emptyContainer, Store.get]

theorem assemble_mp4_empty (v : Variant) (meta : MetadataInfo) :
    (assemble_mp4 (emptyContainer v) meta).1.mp4 = mp4_tags [] meta := by
  unfold assemble_mp4
  simp [emptyContainer, Store.get]

/-- A metadata record with only the required fields set (every optional
field absent). -/
def mAllNone : MetadataInfo :=
  { artist := "A", title := "T", description := none, genre := none, artwork_url := none,
    artwork_file := none, link := none, created_date := none, display_date := none,
    album_title := none, album_author := none, album_track_num := none, tags := none,
    uid := none, track_id := none, user_id := none, album_track_count := none,
    album_type := none, album_publish_date := none, album_display_date := none,
    album_created_date := none, album_release_date := none, album_link := none }

/-- C4 counterexample: with `created_date` and `link` absent (`None`), the
handlers still write the Date/WWWArtist Vorbis comments, the TDRC/WOAR ID3
frames and the ©day/WWWArtist MP4 atoms (with null payloads) — refuting
the claim that every absent optional field produces no key. -/
theorem C4_counterexample :
    mAllNone.created_date = none ∧ mAllNone.link = none ∧
    Store.get (assemble_metadata codecA (emptyContainer .flac) mAllNone).1.vorbis "Date" =
      some none ∧
    Store.get (assemble_metadata codecA (emptyContainer .flac) mAllNone).1.vorbis "WWWArtist" =
      some none ∧
    Store.get (assemble_metadata codecA (emptyContainer .mp3) mAllNone).1.id3 "TDRC" =
      some (.tdrc none) ∧
    Store.get (assemble_metadata codecA (emptyContainer .mp3) mAllNone).1.id3 "WOAR" =
      some (.woar none) ∧
    Store.get (assemble_metadata codecA (emptyContainer .mp4) mAllNone).1.mp4 "©day" =
      some (.ostr none) ∧
    Store.get (assemble_metadata codecA (emptyContainer .mp4) mAllNone).1.mp4
      "----:com.apple.iTunes:WWWArtist" = some .pynone := by
  decide

/-- C4 (amended): for every metadata record, every optional field other
than `created_date` and `link` that is absent (`None`) results in no
key/frame/atom being written for it by `assemble_metadata` (shown for the
Vorbis, ID3 and MP4 families on an empty container); `created_date` and
`link`, however, are always written — the `Date`/`WWWArtist` comments,
`TDRC`/`WOAR` frames and `©day`/`WWWArtist` atoms are present even when
the fields are `None` (written with a null payload). -/
theorem C4_amended_absent_optional_fields_omitted (codec : Codec) (meta : MetadataInfo) :
    (meta.genre = none → Store.get (assemble_metadata codec (emptyContainer .flac) meta).1.vorbis "Genre" = none) ∧
    (meta.tags = none → Store.get (assemble_metadata codec (emptyContainer .flac) meta).1.vorbis "Tags" = none) ∧
    (meta.album_title = none → Store.get (assemble_metadata codec (emptyContainer .flac) meta).1.vorbis "Album" = none) ∧
    (meta.album_author = none → Store.get (assemble_metadata codec (emptyContainer .flac) meta).1.vorbis "Albumartist" = none) ∧
    (meta.album_track_num = none → Store.get (assemble_metadata codec (emptyContainer .flac) meta).1.vorbis "Tracknumber" = none) ∧
    (meta.description = none → Store.get (assemble_metadata codec (emptyContainer .flac) meta).1.vorbis "Description" = none) ∧
    (meta.artwork_url = none → Store.get (assemble_metadata codec (emptyContainer .flac) meta).1.vorbis "Artwork" = none) ∧
    (meta.display_date = none → Store.get (assemble_metadata codec (emptyContainer .flac) meta).1.vorbis "ReleaseTime" = none) ∧
    (meta.uid = none → Store.get (assemble_metadata codec (emptyContainer .flac) meta).1.vorbis "UID" = none) ∧
    (meta.track_id = none → Store.get (assemble_metadata codec (emptyContainer .flac) meta).1.vorbis "ID" = none) ∧
    (meta.user_id = none → Store.get (assemble_metadata codec (emptyContainer .flac) meta).1.vorbis "ID User" = none) ∧
    (meta.album_type = none → Store.get (assemble_metadata codec (emptyContainer .flac) meta).1.vorbis "RELEASETYPE" = none) ∧
    (meta.album_display_date = none → Store.get (assemble_metadata codec (emptyContainer .flac) meta).1.vorbis "Album Display Date" = none) ∧
    (meta.album_publish_date = none → Store.get (assemble_metadata codec (emptyContainer .flac) meta).1.vorbis "Album Publish Date" = none) ∧
    (meta.album_created_date = none → Store.get (assemble_metadata codec (emptyContainer .flac) meta).1.vorbis "Album Creation Date" = none) ∧
    (meta.album_release_date = none → Store.get (assemble_metadata codec (emptyContainer .flac) meta).1.vorbis "Album Release Date" = none) ∧
    (meta.album_link = none → Store.get (assemble_metadata codec (emptyContainer .flac) meta).1.vorbis "WWWAlbum" = none) ∧
    (meta.artwork_file = none → (assemble_metadata codec (emptyContainer .flac) meta).1.pictures = []) ∧
    Store.get (assemble_metadata codec (emptyContainer .flac) meta).1.vorbis "Date" = some meta.created_date ∧
    Store.get (assemble_metadata codec (emptyContainer .flac) meta).1.vorbis "WWWArtist" = some meta.link ∧
    (meta.display_date = none → Store.get (assemble_metadata codec (emptyContainer .mp3) meta).1.id3 "TDRL" = none) ∧
    (meta.description = none → Store.get (assemble_metadata codec (emptyContainer .mp3) meta).1.id3 "COMM" = none) ∧
    (meta.genre = none → Store.get (assemble_metadata codec (emptyContainer .mp3) meta).1.id3 "TCON" = none) ∧
    (meta.album_title = none → Store.get (assemble_metadata codec (emptyContainer .mp3) meta).1.id3 "TALB" = none) ∧
    (meta.album_author = none → Store.get (assemble_metadata codec (emptyContainer .mp3) meta).1.id3 "TPE2" = none) ∧
    (meta.album_track_num = none → Store.get (assemble_metadata codec (emptyContainer .mp3) meta).1.id3 "TRCK" = none) ∧
    (meta.artwork_url = none → Store.get (assemble_metadata codec (emptyContainer .mp3) meta).1.id3 "TXXX:Artwork" = none) ∧
    (meta.tags = none → Store.get (assemble_metadata codec (emptyContainer .mp3) meta).1.id3 "TXXX:Tags" = none) ∧
    (meta.uid = none → Store.get (assemble_metadata codec (emptyContainer .mp3) meta).1.id3 "TXXX:UID" = none) ∧
    (meta.track_id = none → Store.get (assemble_metadata codec (emptyContainer .mp3) meta).1.id3 "TXXX:ID" = none) ∧
    (meta.user_id = none → Store.get (assemble_metadata codec (emptyContainer .mp3) meta).1.id3 "TXXX:ID User" = none) ∧
    (meta.album_type = none → Store.get (assemble_metadata codec (emptyContainer .mp3) meta).1.id3 "TXXX:ReleaseType" = none) ∧
    (meta.album_display_date = none → Store.get (assemble_metadata codec (emptyContainer .mp3) meta).1.id3 "TXXX:Album Display Date" = none) ∧
    (meta.album_publish_date = none → Store.get (assemble_metadata codec (emptyContainer .mp3) meta).1.id3 "TXXX:Album Publish Date" = none) ∧
    (meta.album_created_date = none → Store.get (assemble_metadata codec (emptyContainer .mp3) meta).1.id3 "TXXX:Album Creation Date" = none) ∧
    (meta.album_release_date = none → Store.get (assemble_metadata codec (emptyContainer .mp3) meta).1.id3 "TXXX:Album Release Date" = none) ∧
    (meta.album_link = none → Store.get (assemble_metadata codec (emptyContainer .mp3) meta).1.id3 "TXXX:WWWAlbum" = none) ∧
    (meta.artwork_file = none → Store.get (assemble_metadata codec (emptyContainer .mp3) meta).1.id3 "APIC" = none) ∧
    Store.get (assemble_metadata codec (emptyContainer .mp3) meta).1.id3 "TDRC" = some (.tdrc meta.created_date) ∧
    Store.get (assemble_metadata codec (emptyContainer .mp3) meta).1.id3 "WOAR" = some (.woar meta.link) ∧
    (meta.description = none → Store.get (assemble_metadata codec (emptyContainer .mp4) meta).1.mp4 "©cmt" = none) ∧
    (meta.genre = none → Store.get (assemble_metadata codec (emptyContainer .mp4) meta).1.mp4 "©gen" = none) ∧
    (meta.tags = none → Store.get (assemble_metadata codec (emptyContainer .mp4) meta).1.mp4 "----:com.apple.iTunes:Tags" = none) ∧
    (meta.album_title = none → Store.get (assemble_metadata codec (emptyContainer .mp4) meta).1.mp4 "©alb" = none) ∧
    (meta.album_author = none → Store.get (assemble_metadata codec (emptyContainer .mp4) meta).1.mp4 "aART" = none) ∧
    (meta.album_track_num = none → Store.get (assemble_metadata codec (emptyContainer .mp4) meta).1.mp4 "trkn" = none) ∧
    (meta.artwork_url = none → Store.get (assemble_metadata codec (emptyContainer .mp4) meta).1.mp4 "----:com.apple.iTunes:Artwork" = none) ∧
    (meta.display_date = none → Store.get (assemble_metadata codec (emptyContainer .mp4) meta).1.mp4 "----:com.apple.iTunes:ReleaseTime" = none) ∧
    (meta.uid = none → Store.get (assemble_metadata codec (emptyContainer .mp4) meta).1.mp4 "----:com.apple.iTunes:UID" = none) ∧
    (meta.track_id = none → Store.get (assemble_metadata codec (emptyContainer .mp4) meta).1.mp4 "----:com.apple.iTunes:ID" = none) ∧
    (meta.user_id = none → Store.get (assemble_metadata codec (emptyContainer .mp4) meta).1.mp4 "----:com.apple.iTunes:ID User" = none) ∧
    (meta.album_type = none → Store.get (assemble_metadata codec (emptyContainer .mp4) meta).1.mp4 "----:com.apple.iTunes:ReleaseType" = none) ∧
    (meta.album_display_date = none → Store.get (assemble_metadata codec (emptyContainer .mp4) meta).1.mp4 "----:com.apple.iTunes:Album Display Date" = none) ∧
    (meta.album_publish_date = none → Store.get (assemble_metadata codec (emptyContainer .mp4) meta).1.mp4 "----:com.apple.iTunes:Album Publish Date" = none) ∧
    (meta.album_created_date = none → Store.get (assemble_metadata codec (emptyContainer .mp4) meta).1.mp4 "----:com.apple.iTunes:Album Creation Date" = none) ∧
    (meta.album_release_date = none → Store.get (assemble_metadata codec (emptyContainer .mp4) meta).1.mp4 "----:com.apple.iTunes:Album Release Date" = none) ∧
    (meta.album_link = none → Store.get (assemble_metadata codec (emptyContainer .mp4) meta).1.mp4 "----:com.apple.iTunes:WWWAlbum" = none) ∧
    (meta.artwork_file = none → Store.get (assemble_metadata codec (emptyContainer .mp4) meta).1.mp4 "covr" = none) ∧
    Store.get (assemble_metadata codec (emptyContainer .mp4) meta).1.mp4 "©day" = some (.ostr meta.created_date) ∧
    (meta.link = none → Store.get (assemble_metadata codec (emptyContainer .mp4) meta).1.mp4 "----:com.apple.iTunes:WWWArtist" = some .pynone) := by
  have hdispF : assemble_metadata codec (emptyContainer .flac) meta =
      assemble_flac codec (emptyContainer .flac) meta := rfl
  have hdisp3 : assemble_metadata codec (emptyContainer .mp3) meta =
      assemble_id3 codec (emptyContainer .mp3) meta := rfl
  have hdisp4 : assemble_metadata codec (emptyContainer .mp4) meta =
      assemble_mp4 (emptyContainer .mp4) meta := rfl
  have hA : (assemble_metadata codec (emptyContainer .flac) meta).1.vorbis =
      _assemble_vorbis_tags [] meta := by
    rw [hdispF, assemble_flac_vorbis]
    rfl
  have hB := assemble_id3_empty_shape codec .mp3 meta
  have hM : (assemble_mp4 (emptyContainer .mp4) meta).1.mp4 = mp4_tags [] meta :=
    assemble_mp4_empty .mp4 meta
  refine ⟨?_, ?_, ?_, ?_, ?_, ?_, ?_, ?_, ?_, ?_, ?_, ?_, ?_, ?_, ?_, ?_, ?_, ?_, ?_, ?_, ?_, ?_, ?_, ?_, ?_, ?_, ?_, ?_, ?_, ?_, ?_, ?_, ?_, ?_, ?_, ?_, ?_, ?_, ?_, ?_, ?_, ?_, ?_, ?_, ?_, ?_, ?_, ?_, ?_, ?_, ?_, ?_, ?_, ?_, ?_, ?_, ?_, ?_, ?_, ?_⟩
  · intro h
    rw [hA]
    simp [_assemble_vorbis_tags, writeTruthyStr_none, writeSomeStr_none, writeTruthyInt_none, writeSomeInt_none, get_writeTruthyStr_ne, get_writeSomeStr_ne, get_writeTruthyInt_ne, get_writeSomeInt_ne, Store.get_set_ne, Store.get_set_self, Store.get, h]
  · intro h
    rw [hA]
    simp [_assemble_vorbis_tags, writeTruthyStr_none, writeSomeStr_none, writeTruthyInt_none, writeSomeInt_none, get_writeTruthyStr_ne, get_writeSomeStr_ne, get_writeTruthyInt_ne, get_writeSomeInt_ne, Store.get_set_ne, Store.get_set_self, Store.get, h]
  · intro h
    rw [hA]
    simp [_assemble_vorbis_tags, writeTruthyStr_none, writeSomeStr_none, writeTruthyInt_none, writeSomeInt_none, get_writeTruthyStr_ne, get_writeSomeStr_ne, get_writeTruthyInt_ne, get_writeSomeInt_ne, Store.get_set_ne, Store.get_set_self, Store.get, h]
  · intro h
    rw [hA]
    simp [_assemble_vorbis_tags, writeTruthyStr_none, writeSomeStr_none, writeTruthyInt_none, writeSomeInt_none, get_writeTruthyStr_ne, get_writeSomeStr_ne, get_writeTruthyInt_ne, get_writeSomeInt_ne, Store.get_set_ne, Store.get_set_self, Store.get, h]
  · intro h
    rw [hA]
    simp [_assemble_vorbis_tags, writeTruthyStr_none, writeSomeStr_none, writeTruthyInt_none, writeSomeInt_none, get_writeTruthyStr_ne, get_writeSomeStr_ne, get_writeTruthyInt_ne, get_writeSomeInt_ne, Store.get_set_ne, Store.get_set_self, Store.get, h]
  · intro h
    rw [hA]
    simp [_assemble_vorbis_tags, writeTruthyStr_none, writeSomeStr_none, writeTruthyInt_none, writeSomeInt_none, get_writeTruthyStr_ne, get_writeSomeStr_ne, get_writeTruthyInt_ne, get_writeSomeInt_ne, Store.get_set_ne, Store.get_set_self, Store.get, h]
  · intro h
    rw [hA]
    simp [_assemble_vorbis_tags, writeTruthyStr_none, writeSomeStr_none, writeTruthyInt_none, writeSomeInt_none, get_writeTruthyStr_ne, get_writeSomeStr_ne, get_writeTruthyInt_ne, get_writeSomeInt_ne, Store.get_set_ne, Store.get_set_self, Store.get, h]
  · intro h
    rw [hA]
    simp [_assemble_vorbis_tags, writeTruthyStr_none, writeSomeStr_none, writeTruthyInt_none, writeSomeInt_none, get_writeTruthyStr_ne, get_writeSomeStr_ne, get_writeTruthyInt_ne, get_writeSomeInt_ne, Store.get_set_ne, Store.get_set_self, Store.get, h]
  · intro h
    rw [hA]
    simp [_assemble_vorbis_tags, writeTruthyStr_none, writeSomeStr_none, writeTruthyInt_none, writeSomeInt_none, get_writeTruthyStr_ne, get_writeSomeStr_ne, get_writeTruthyInt_ne, get_writeSomeInt_ne, Store.get_set_ne, Store.get_set_self, Store.get, h]
  · intro h
    rw [hA]
    simp [_assemble_vorbis_tags, writeTruthyStr_none, writeSomeStr_none, writeTruthyInt_none, writeSomeInt_none, get_writeTruthyStr_ne, get_writeSomeStr_ne, get_writeTruthyInt_ne, get_writeSomeInt_ne, Store.get_set_ne, Store.get_set_self, Store.get, h]
  · intro h
    rw [hA]
    simp [_assemble_vorbis_tags, writeTruthyStr_none, writeSomeStr_none, writeTruthyInt_none, writeSomeInt_none, get_writeTruthyStr_ne, get_writeSomeStr_ne, get_writeTruthyInt_ne, get_writeSomeInt_ne, Store.get_set_ne, Store.get_set_self, Store.get, h]
  · intro h
    rw [hA]
    simp [_assemble_vorbis_tags, writeTruthyStr_none, writeSomeStr_none, writeTruthyInt_none, writeSomeInt_none, get_writeTruthyStr_ne, get_writeSomeStr_ne, get_writeTruthyInt_ne, get_writeSomeInt_ne, Store.get_set_ne, Store.get_set_self, Store.get, h]
  · intro h
    rw [hA]
    simp [_assemble_vorbis_tags, writeTruthyStr_none, writeSomeStr_none, writeTruthyInt_none, writeSomeInt_none, get_writeTruthyStr_ne, get_writeSomeStr_ne, get_writeTruthyInt_ne, get_writeSomeInt_ne, Store.get_set_ne, Store.get_set_self, Store.get, h]
  · intro h
    rw [hA]
    simp [_assemble_vorbis_tags, writeTruthyStr_none, writeSomeStr_none, writeTruthyInt_none, writeSomeInt_none, get_writeTruthyStr_ne, get_writeSomeStr_ne, get_writeTruthyInt_ne, get_writeSomeInt_ne, Store.get_set_ne, Store.get_set_self, Store.get, h]
  · intro h
    rw [hA]
    simp [_assemble_vorbis_tags, writeTruthyStr_none, writeSomeStr_none, writeTruthyInt_none, writeSomeInt_none, get_writeTruthyStr_ne, get_writeSomeStr_ne, get_writeTruthyInt_ne, get_writeSomeInt_ne, Store.get_set_ne, Store.get_set_self, Store.get, h]
  · intro h
    rw [hA]
    simp [_assemble_vorbis_tags, writeTruthyStr_none, writeSomeStr_none, writeTruthyInt_none, writeSomeInt_none, get_writeTruthyStr_ne, get_writeSomeStr_ne, get_writeTruthyInt_ne, get_writeSomeInt_ne, Store.get_set_ne, Store.get_set_self, Store.get, h]
  · intro h
    rw [hA]
    simp [_assemble_vorbis_tags, writeTruthyStr_none, writeSomeStr_none, writeTruthyInt_none, writeSomeInt_none, get_writeTruthyStr_ne, get_writeSomeStr_ne, get_writeTruthyInt_ne, get_writeSomeInt_ne, Store.get_set_ne, Store.get_set_self, Store.get, h]
  · intro h
    rw [hdispF]
    rw [assemble_flac_pictures_no_artwork codec _ meta h]
    rfl
  · rw [hA]
    simp [_assemble_vorbis_tags, writeTruthyStr_none, writeSomeStr_none, writeTruthyInt_none, writeSomeInt_none, get_writeTruthyStr_ne, get_writeSomeStr_ne, get_writeTruthyInt_ne, get_writeSomeInt_ne, Store.get_set_ne, Store.get_set_self, Store.get]
  · rw [hA]
    simp [_assemble_vorbis_tags, writeTruthyStr_none, writeSomeStr_none, writeTruthyInt_none, writeSomeInt_none, get_writeTruthyStr_ne, get_writeSomeStr_ne, get_writeTruthyInt_ne, get_writeSomeInt_ne, Store.get_set_ne, Store.get_set_self, Store.get]
  · intro h
    rw [hdisp3]
    rcases hB with hb | ⟨fr, hb⟩ | hb <;> rw [hb] <;> simp [id3_txxx_tags, id3_base_tags, writeTruthyStr_none, writeSomeStr_none, writeTruthyInt_none, writeSomeInt_none, get_writeTruthyStr_ne, get_writeSomeStr_ne, get_writeTruthyInt_ne, get_writeSomeInt_ne, Store.get_set_ne, Store.get_set_self, Store.get, h]
  · intro h
    rw [hdisp3]
    rcases hB with hb | ⟨fr, hb⟩ | hb <;> rw [hb] <;> simp [id3_txxx_tags, id3_base_tags, writeTruthyStr_none, writeSomeStr_none, writeTruthyInt_none, writeSomeInt_none, get_writeTruthyStr_ne, get_writeSomeStr_ne, get_writeTruthyInt_ne, get_writeSomeInt_ne, Store.get_set_ne, Store.get_set_self, Store.get, h]
  · intro h
    rw [hdisp3]
    rcases hB with hb | ⟨fr, hb⟩ | hb <;> rw [hb] <;> simp [id3_txxx_tags, id3_base_tags, writeTruthyStr_none, writeSomeStr_none, writeTruthyInt_none, writeSomeInt_none, get_writeTruthyStr_ne, get_writeSomeStr_ne, get_writeTruthyInt_ne, get_writeSomeInt_ne, Store.get_set_ne, Store.get_set_self, Store.get, h]
  · intro h
    rw [hdisp3]
    rcases hB with hb | ⟨fr, hb⟩ | hb <;> rw [hb] <;> simp [id3_txxx_tags, id3_base_tags, writeTruthyStr_none, writeSomeStr_none, writeTruthyInt_none, writeSomeInt_none, get_writeTruthyStr_ne, get_writeSomeStr_ne, get_writeTruthyInt_ne, get_writeSomeInt_ne, Store.get_set_ne, Store.get_set_self, Store.get, h]
  · intro h
    rw [hdisp3]
    rcases hB with hb | ⟨fr, hb⟩ | hb <;> rw [hb] <;> simp [id3_txxx_tags, id3_base_tags, writeTruthyStr_none, writeSomeStr_none, writeTruthyInt_none, writeSomeInt_none, get_writeTruthyStr_ne, get_writeSomeStr_ne, get_writeTruthyInt_ne, get_writeSomeInt_ne, Store.get_set_ne, Store.get_set_self, Store.get, h]
  · intro h
    rw [hdisp3]
    rcases hB with hb | ⟨fr, hb⟩ | hb <;> rw [hb] <;> simp [id3_txxx_tags, id3_base_tags, writeTruthyStr_none, writeSomeStr_none, writeTruthyInt_none, writeSomeInt_none, get_writeTruthyStr_ne, get_writeSomeStr_ne, get_writeTruthyInt_ne, get_writeSomeInt_ne, Store.get_set_ne, Store.get_set_self, Store.get, h]
  · intro h
    rw [hdisp3]
    rcases hB with hb | ⟨fr, hb⟩ | hb <;> rw [hb] <;> simp [id3_txxx_tags, id3_base_tags, writeTruthyStr_none, writeSomeStr_none, writeTruthyInt_none, writeSomeInt_none, get_writeTruthyStr_ne, get_writeSomeStr_ne, get_writeTruthyInt_ne, get_writeSomeInt_ne, Store.get_set_ne, Store.get_set_self, Store.get, h]
  · intro h
    rw [hdisp3]
    rcases hB with hb | ⟨fr, hb⟩ | hb <;> rw [hb] <;> simp [id3_txxx_tags, id3_base_tags, writeTruthyStr_none, writeSomeStr_none, writeTruthyInt_none, writeSomeInt_none, get_writeTruthyStr_ne, get_writeSomeStr_ne, get_writeTruthyInt_ne, get_writeSomeInt_ne, Store.get_set_ne, Store.get_set_self, Store.get, h]
  · intro h
    rw [hdisp3]
    rcases hB with hb | ⟨fr, hb⟩ | hb <;> rw [hb] <;> simp [id3_txxx_tags, id3_base_tags, writeTruthyStr_none, writeSomeStr_none, writeTruthyInt_none, writeSomeInt_none, get_writeTruthyStr_ne, get_writeSomeStr_ne, get_writeTruthyInt_ne, get_writeSomeInt_ne, Store.get_set_ne, Store.get_set_self, Store.get, h]
  · intro h
    rw [hdisp3]
    rcases hB with hb | ⟨fr, hb⟩ | hb <;> rw [hb] <;> simp [id3_txxx_tags, id3_base_tags, writeTruthyStr_none, writeSomeStr_none, writeTruthyInt_none, writeSomeInt_none, get_writeTruthyStr_ne, get_writeSomeStr_ne, get_writeTruthyInt_ne, get_writeSomeInt_ne, Store.get_set_ne, Store.get_set_self, Store.get, h]
  · intro h
    rw [hdisp3]
    rcases hB with hb | ⟨fr, hb⟩ | hb <;> rw [hb] <;> simp [id3_txxx_tags, id3_base_tags, writeTruthyStr_none, writeSomeStr_none, writeTruthyInt_none, writeSomeInt_none, get_writeTruthyStr_ne, get_writeSomeStr_ne, get_writeTruthyInt_ne, get_writeSomeInt_ne, Store.get_set_ne, Store.get_set_self, Store.get, h]
  · intro h
    rw [hdisp3]
    rcases hB with hb | ⟨fr, hb⟩ | hb <;> rw [hb] <;> simp [id3_txxx_tags, id3_base_tags, writeTruthyStr_none, writeSomeStr_none, writeTruthyInt_none, writeSomeInt_none, get_writeTruthyStr_ne, get_writeSomeStr_ne, get_writeTruthyInt_ne, get_writeSomeInt_ne, Store.get_set_ne, Store.get_set_self, Store.get, h]
  · intro h
    rw [hdisp3]
    rcases hB with hb | ⟨fr, hb⟩ | hb <;> rw [hb] <;> simp [id3_txxx_tags, id3_base_tags, writeTruthyStr_none, writeSomeStr_none, writeTruthyInt_none, writeSomeInt_none, get_writeTruthyStr_ne, get_writeSomeStr_ne, get_writeTruthyInt_ne, get_writeSomeInt_ne, Store.get_set_ne, Store.get_set_self, Store.get, h]
  · intro h
    rw [hdisp3]
    rcases hB with hb | ⟨fr, hb⟩ | hb <;> rw [hb] <;> simp [id3_txxx_tags, id3_base_tags, writeTruthyStr_none, writeSomeStr_none, writeTruthyInt_none, writeSomeInt_none, get_writeTruthyStr_ne, get_writeSomeStr_ne, get_writeTruthyInt_ne, get_writeSomeInt_ne, Store.get_set_ne, Store.get_set_self, Store.get, h]
  · intro h
    rw [hdisp3]
    rcases hB with hb | ⟨fr, hb⟩ | hb <;> rw [hb] <;> simp [id3_txxx_tags, id3_base_tags, writeTruthyStr_none, writeSomeStr_none, writeTruthyInt_none, writeSomeInt_none, get_writeTruthyStr_ne, get_writeSomeStr_ne, get_writeTruthyInt_ne, get_writeSomeInt_ne, Store.get_set_ne, Store.get_set_self, Store.get, h]
  · intro h
    rw [hdisp3]
    rcases hB with hb | ⟨fr, hb⟩ | hb <;> rw [hb] <;> simp [id3_txxx_tags, id3_base_tags, writeTruthyStr_none, writeSomeStr_none, writeTruthyInt_none, writeSomeInt_none, get_writeTruthyStr_ne, get_writeSomeStr_ne, get_writeTruthyInt_ne, get_writeSomeInt_ne, Store.get_set_ne, Store.get_set_self, Store.get, h]
  · intro h
    rw [hdisp3]
    rcases hB with hb | ⟨fr, hb⟩ | hb <;> rw [hb] <;> simp [id3_txxx_tags, id3_base_tags, writeTruthyStr_none, writeSomeStr_none, writeTruthyInt_none, writeSomeInt_none, get_writeTruthyStr_ne, get_writeSomeStr_ne, get_writeTruthyInt_ne, get_writeSomeInt_ne, Store.get_set_ne, Store.get_set_self, Store.get, h]
  · intro h
    rw [hdisp3, assemble_id3_empty_no_artwork codec _ meta h]
    simp [id3_txxx_tags, id3_base_tags, writeTruthyStr_none, writeSomeStr_none, writeTruthyInt_none, writeSomeInt_none, get_writeTruthyStr_ne, get_writeSomeStr_ne, get_writeTruthyInt_ne, get_writeSomeInt_ne, Store.get_set_ne, Store.get_set_self, Store.get]
  · rw [hdisp3]
    rcases hB with hb | ⟨fr, hb⟩ | hb <;> rw [hb] <;> simp [id3_txxx_tags, id3_base_tags, writeTruthyStr_none, writeSomeStr_none, writeTruthyInt_none, writeSomeInt_none, get_writeTruthyStr_ne, get_writeSomeStr_ne, get_writeTruthyInt_ne, get_writeSomeInt_ne, Store.get_set_ne, Store.get_set_self, Store.get]
  · rw [hdisp3]
    rcases hB with hb | ⟨fr, hb⟩ | hb <;> rw [hb] <;> simp [id3_txxx_tags, id3_base_tags, writeTruthyStr_none, writeSomeStr_none, writeTruthyInt_none, writeSomeInt_none, get_writeTruthyStr_ne, get_writeSomeStr_ne, get_writeTruthyInt_ne, get_writeSomeInt_ne, Store.get_set_ne, Store.get_set_self, Store.get]
  · intro h
    rw [hdisp4, hM]
    simp [mp4_tags, writeTruthyStr_none, writeSomeStr_none, writeTruthyInt_none, writeSomeInt_none, writeCovr_none, get_writeTruthyStr_ne, get_writeSomeStr_ne, get_writeTruthyInt_ne, get_writeSomeInt_ne, get_writeCovr_ne, Store.get_set_ne, Store.get_set_self, Store.get, h]
  · intro h
    rw [hdisp4, hM]
    simp [mp4_tags, writeTruthyStr_none, writeSomeStr_none, writeTruthyInt_none, writeSomeInt_none, writeCovr_none, get_writeTruthyStr_ne, get_writeSomeStr_ne, get_writeTruthyInt_ne, get_writeSomeInt_ne, get_writeCovr_ne, Store.get_set_ne, Store.get_set_self, Store.get, h]
  · intro h
    rw [hdisp4, hM]
    simp [mp4_tags, writeTruthyStr_none, writeSomeStr_none, writeTruthyInt_none, writeSomeInt_none, writeCovr_none, get_writeTruthyStr_ne, get_writeSomeStr_ne, get_writeTruthyInt_ne, get_writeSomeInt_ne, get_writeCovr_ne, Store.get_set_ne, Store.get_set_self, Store.get, h]
  · intro h
    rw [hdisp4, hM]
    simp [mp4_tags, writeTruthyStr_none, writeSomeStr_none, writeTruthyInt_none, writeSomeInt_none, writeCovr_none, get_writeTruthyStr_ne, get_writeSomeStr_ne, get_writeTruthyInt_ne, get_writeSomeInt_ne, get_writeCovr_ne, Store.get_set_ne, Store.get_set_self, Store.get, h]
  · intro h
    rw [hdisp4, hM]
    simp [mp4_tags, writeTruthyStr_none, writeSomeStr_none, writeTruthyInt_none, writeSomeInt_none, writeCovr_none, get_writeTruthyStr_ne, get_writeSomeStr_ne, get_writeTruthyInt_ne, get_writeSomeInt_ne, get_writeCovr_ne, Store.get_set_ne, Store.get_set_self, Store.get, h]
  · intro h
    rw [hdisp4, hM]
    simp [mp4_tags, writeTruthyStr_none, writeSomeStr_none, writeTruthyInt_none, writeSomeInt_none, writeCovr_none, get_writeTruthyStr_ne, get_writeSomeStr_ne, get_writeTruthyInt_ne, get_writeSomeInt_ne, get_writeCovr_ne, Store.get_set_ne, Store.get_set_self, Store.get, h]
  · intro h
    rw [hdisp4, hM]
    simp [mp4_tags, writeTruthyStr_none, writeSomeStr_none, writeTruthyInt_none, writeSomeInt_none, writeCovr_none, get_writeTruthyStr_ne, get_writeSomeStr_ne, get_writeTruthyInt_ne, get_writeSomeInt_ne, get_writeCovr_ne, Store.get_set_ne, Store.get_set_self, Store.get, h]
  · intro h
    rw [hdisp4, hM]
    simp [mp4_tags, writeTruthyStr_none, writeSomeStr_none, writeTruthyInt_none, writeSomeInt_none, writeCovr_none, get_writeTruthyStr_ne, get_writeSomeStr_ne, get_writeTruthyInt_ne, get_writeSomeInt_ne, get_writeCovr_ne, Store.get_set_ne, Store.get_set_self, Store.get, h]
  · intro h
    rw [hdisp4, hM]
    simp [mp4_tags, writeTruthyStr_none, writeSomeStr_none, writeTruthyInt_none, writeSomeInt_none, writeCovr_none, get_writeTruthyStr_ne, get_writeSomeStr_ne, get_writeTruthyInt_ne, get_writeSomeInt_ne, get_writeCovr_ne, Store.get_set_ne, Store.get_set_self, Store.get, h]
  · intro h
    rw [hdisp4, hM]
    simp [mp4_tags, writeTruthyStr_none, writeSomeStr_none, writeTruthyInt_none, writeSomeInt_none, writeCovr_none, get_writeTruthyStr_ne, get_writeSomeStr_ne, get_writeTruthyInt_ne, get_writeSomeInt_ne, get_writeCovr_ne, Store.get_set_ne, Store.get_set_self, Store.get, h]
  · intro h
    rw [hdisp4, hM]
    simp [mp4_tags, writeTruthyStr_none, writeSomeStr_none, writeTruthyInt_none, writeSomeInt_none, writeCovr_none, get_writeTruthyStr_ne, get_writeSomeStr_ne, get_writeTruthyInt_ne, get_writeSomeInt_ne, get_writeCovr_ne, Store.get_set_ne, Store.get_set_self, Store.get, h]
  · intro h
    rw [hdisp4, hM]
    simp [mp4_tags, writeTruthyStr_none, writeSomeStr_none, writeTruthyInt_none, writeSomeInt_none, writeCovr_none, get_writeTruthyStr_ne, get_writeSomeStr_ne, get_writeTruthyInt_ne, get_writeSomeInt_ne, get_writeCovr_ne, Store.get_set_ne, Store.get_set_self, Store.get, h]
  · intro h
    rw [hdisp4, hM]
    simp [mp4_tags, writeTruthyStr_none, writeSomeStr_none, writeTruthyInt_none, writeSomeInt_none, writeCovr_none, get_writeTruthyStr_ne, get_writeSomeStr_ne, get_writeTruthyInt_ne, get_writeSomeInt_ne, get_writeCovr_ne, Store.get_set_ne, Store.get_set_self, Store.get, h]
  · intro h
    rw [hdisp4, hM]
    simp [mp4_tags, writeTruthyStr_none, writeSomeStr_none, writeTruthyInt_none, writeSomeInt_none, writeCovr_none, get_writeTruthyStr_ne, get_writeSomeStr_ne, get_writeTruthyInt_ne, get_writeSomeInt_ne, get_writeCovr_ne, Store.get_set_ne, Store.get_set_self, Store.get, h]
  · intro h
    rw [hdisp4, hM]
    simp [mp4_tags, writeTruthyStr_none, writeSomeStr_none, writeTruthyInt_none, writeSomeInt_none, writeCovr_none, get_writeTruthyStr_ne, get_writeSomeStr_ne, get_writeTruthyInt_ne, get_writeSomeInt_ne, get_writeCovr_ne, Store.get_set_ne, Store.get_set_self, Store.get, h]
  · intro h
    rw [hdisp4, hM]
    simp [mp4_tags, writeTruthyStr_none, writeSomeStr_none, writeTruthyInt_none, writeSomeInt_none, writeCovr_none, get_writeTruthyStr_ne, get_writeSomeStr_ne, get_writeTruthyInt_ne, get_writeSomeInt_ne, get_writeCovr_ne, Store.get_set_ne, Store.get_set_self, Store.get, h]
  · intro h
    rw [hdisp4, hM]
    simp [mp4_tags, writeTruthyStr_none, writeSomeStr_none, writeTruthyInt_none, writeSomeInt_none, writeCovr_none, get_writeTruthyStr_ne, get_writeSomeStr_ne, get_writeTruthyInt_ne, get_writeSomeInt_ne, get_writeCovr_ne, Store.get_set_ne, Store.get_set_self, Store.get, h]
  · intro h
    rw [hdisp4, hM]
    simp [mp4_tags, writeTruthyStr_none, writeSomeStr_none, writeTruthyInt_none, writeSomeInt_none, writeCovr_none, get_writeTruthyStr_ne, get_writeSomeStr_ne, get_writeTruthyInt_ne, get_writeSomeInt_ne, get_writeCovr_ne, Store.get_set_ne, Store.get_set_self, Store.get, h]
  · rw [hdisp4, hM]
    simp [mp4_tags, writeTruthyStr_none, writeSomeStr_none, writeTruthyInt_none, writeSomeInt_none, writeCovr_none, get_writeTruthyStr_ne, get_writeSomeStr_ne, get_writeTruthyInt_ne, get_writeSomeInt_ne, get_writeCovr_ne, Store.get_set_ne, Store.get_set_self, Store.get]
  · intro h
    rw [hdisp4, hM]
    simp [mp4_tags, writeTruthyStr_none, writeSomeStr_none, writeTruthyInt_none, writeSomeInt_none, writeCovr_none, get_writeTruthyStr_ne, get_writeSomeStr_ne, get_writeTruthyInt_ne, get_writeSomeInt_ne, get_writeCovr_ne, Store.get_set_ne, Store.get_set_self, Store.get, h]

/-- C4 amended witness: at the all-absent record `mAllNone`, the Genre
comment is indeed absent while the Date comment is present with a null
payload. -/
theorem C4_amended_witness :
    mAllNone.genre = none ∧
    Store.get (assemble_metadata codecA (emptyContainer .flac) mAllNone).1.vorbis "Genre" =
      none ∧
    Store.get (assemble_metadata codecA (emptyContainer .flac) mAllNone).1.vorbis "Date" =
      some none := by
  obtain ⟨hg, -, -, -, -, -, -, -, -, -, -, -, -, -, -, -, -, -, hdate, -, -, -, -, -, -, -, -, -, -, -, -, -, -, -, -, -, -, -, -, -, -, -, -, -, -, -, -, -, -, -, -, -, -, -, -, -, -, -, -, -⟩ := C4_amended_absent_optional_fields_omitted codecA mAllNone
  exact ⟨rfl, hg rfl, hdate⟩

/-- C5: invoking `assemble_metadata` on a container whose variant is not
among the recognized set (FLAC, Ogg family, MP3/AIFF/WAVE, MP4) fails with
the unsupported-container-variant error (the `singledispatch` base case
raises before touching the container) and leaves the container completely
unmodified. -/
theorem C5_unrecognized_variant_rejected (codec : Codec) (file : TagContainer)
    (meta : MetadataInfo) (name : String) (hv : file.variant = .other name) :
    assemble_metadata codec file meta = (file, some .unsupportedContainerVariant) := by
  unfold assemble_metadata
  simp only [hv]

/-- C5 witness: a concrete container of an unrecognized variant is
rejected and returned untouched. -/
theorem C5_unrecognized_variant_rejected_witness :
    (emptyContainer (.other "asf")).variant = .other "asf" ∧
    assemble_metadata codecA (emptyContainer (.other "asf")) mAllNone =
      (emptyContainer (.other "asf"), some .unsupportedContainerVariant) :=
  ⟨rfl, C5_unrecognized_variant_rejected codecA _ mAllNone "asf" rfl⟩

/-- The metadata record of the C7 scenario: artist "A", title "T",
date "2020", link null, album track number 3, all else absent. -/
def m7 : MetadataInfo :=
  { mAllNone with created_date := some "2020", album_track_num := some 3 }

/-- C7 counterexample: the ID3 handler also writes a `WOAR` frame (with a
null URL) in the scenario, so the container does not hold exactly the four
claimed frames TPE1/TIT2/TDRC/TRCK. -/
theorem C7_counterexample :
    Store.get (assemble_metadata codecA (emptyContainer .mp3) m7).1.id3 "WOAR" =
      some (.woar none) ∧
    ¬ (∀ k, (Store.get (assemble_metadata codecA (emptyContainer .mp3) m7).1.id3 k).isSome →
        k ∈ (["TPE1", "TIT2", "TDRC", "TRCK"] : List String)) := by
  refine ⟨by decide, fun hall => ?_⟩
  have h := hall "WOAR" (by decide)
  revert h
  decide

/-- C7 (amended): assembling the scenario record into an empty MP3
container yields exactly the frames TIT2="T", TPE1="A", TDRC="2020",
TRCK="3" (track number stringified) plus the always-written WOAR frame
with a null URL, with no TALB and no TPE2 frame and no error. -/
theorem C7_amended_mp3_scenario :
    assemble_metadata codecA (emptyContainer .mp3) m7 =
      ({ emptyContainer .mp3 with id3 :=
          [("TIT2", .tit2 "T"), ("TPE1", .tpe1 "A"), ("TDRC", .tdrc (some "2020")),
           ("WOAR", .woar none), ("TRCK", .trck "3")] }, none) ∧
    Store.get (assemble_metadata codecA (emptyContainer .mp3) m7).1.id3 "TALB" = none ∧
    Store.get (assemble_metadata codecA (emptyContainer .mp3) m7).1.id3 "TPE2" = none := by
  decide

theorem _get_flac_pic_ok (codec : Codec) (ab : Bytes) (meta : MetadataInfo) (mime : String)
    (h : get_mime_type codec ab = .ok mime) :
    _get_flac_pic codec ab meta =
      .ok { data := ab, mime := mime, desc := pyStrOrNone meta.artwork_url, ptype := 3 } := by
  unfold _get_flac_pic
  simp only [h]

theorem _get_apic_ok (codec : Codec) (ab : Bytes) (meta : MetadataInfo) (mime : String)
    (h : get_mime_type codec ab = .ok mime) :
    _get_apic codec ab meta = .ok (.apic mime (pyStrOrNone meta.artwork_url) ab) := by
  unfold _get_apic
  simp only [h]

theorem writeCovr_some (s : Store MP4Val) (ab : Bytes) (h : ab ≠ []) :
    writeCovr s (some ab) = Store.set s "covr" (.covr [ab]) := by
  simp [writeCovr, h]

theorem id3_base_tags_get_apic (s : Store ID3Frame) (meta : MetadataInfo) :
    Store.get (id3_base_tags s meta) "APIC" = Store.get s "APIC" := by
  simp [id3_base_tags, get_writeTruthyStr_ne, get_writeSomeInt_ne, Store.get_set_ne]

theorem id3_txxx_tags_get_apic (s : Store ID3Frame) (meta : MetadataInfo) :
    Store.get (id3_txxx_tags s meta) "APIC" = Store.get s "APIC" := by
  simp [id3_txxx_tags, get_writeTruthyStr_ne, get_writeSomeStr_ne, get_writeTruthyInt_ne,
    Store.get_set_ne]

theorem id3_txxx_tags_countKey_apic (s : Store ID3Frame) (meta : MetadataInfo) :
    Store.countKey (id3_txxx_tags s meta) "APIC" = Store.countKey s "APIC" := by
  simp [id3_txxx_tags, countKey_writeTruthyStr_ne, countKey_writeSomeStr_ne,
    countKey_writeTruthyInt_ne, Store.countKey_set_ne]

theorem assemble_id3_artwork (codec : Codec) (file : TagContainer) (meta : MetadataInfo)
    (ab : Bytes) (mime : String)
    (hart : meta.artwork_file = some ab) (hne : ab ≠ [])
    (hmime : get_mime_type codec ab = .ok mime) :
    Store.get (assemble_id3 codec file meta).1.id3 "APIC" =
      some (.apic mime (pyStrOrNone meta.artwork_url) ab) ∧
    Store.countKey (assemble_id3 codec file meta).1.id3 "APIC" = 1 := by
  unfold assemble_id3
  simp only [hart]
  rw [if_neg hne]
  rw [_get_apic_ok codec ab meta mime hmime]
  simp only []
  have hs0none : Store.get (if (Store.get file.id3 "APIC").isSome
      then Store.del file.id3 "APIC" else file.id3) "APIC" = none := by
    by_cases hc : (Store.get file.id3 "APIC").isSome
    · rw [if_pos hc]
      exact Store.get_del_self _ _
    · rw [if_neg hc]
      exact Option.not_isSome_iff_eq_none.mp hc
  have hs1none : Store.get (id3_base_tags (if (Store.get file.id3 "APIC").isSome
      then Store.del file.id3 "APIC" else file.id3) meta) "APIC" = none := by
    rw [id3_base_tags_get_apic]
    exact hs0none
  constructor
  · rw [id3_txxx_tags_get_apic, Store.get_set_self]
  · rw [id3_txxx_tags_countKey_apic, Store.countKey_set_of_get_none _ _ hs1none]

theorem mp4_tags_covr (s : Store MP4Val) (meta : MetadataInfo) (ab : Bytes)
    (hart : meta.artwork_file = some ab) (hne : ab ≠ []) (hs : Store.get s "covr" = none) :
    Store.get (mp4_tags s meta) "covr" = some (.covr [ab]) ∧
    Store.countKey (mp4_tags s meta) "covr" = 1 := by
  unfold mp4_tags
  simp only [hart, writeCovr_some _ ab hne]
  constructor
  · simp [get_writeTruthyStr_ne, get_writeSomeStr_ne, get_writeTruthyInt_ne, get_writeSomeInt_ne,
      Store.get_set_self, Store.get_set_ne]
  · simp [countKey_writeTruthyStr_ne, countKey_writeSomeStr_ne, countKey_writeTruthyInt_ne,
      countKey_writeSomeInt_ne, Store.countKey_set_ne,
      Store.countKey_set_of_get_none, get_writeTruthyStr_ne, get_writeSomeStr_ne,
      get_writeTruthyInt_ne, get_writeSomeInt_ne, Store.get_set_ne, hs]

/-- C9: re-invoking `assemble_metadata` with truthy artwork bytes leaves
exactly one cover image, whatever the container already held: the FLAC
handler clears all existing pictures before adding one (the picture list
becomes exactly the one new picture), the ID3 handler deletes any existing
APIC frame before writing one (exactly one APIC entry remains, holding the
new image), and the MP4 handler deletes any existing covr atom before
writing one (exactly one covr entry remains, holding the new image). -/
theorem C9_artwork_replaced_not_appended (codec : Codec) (file : TagContainer)
    (meta : MetadataInfo) (ab : Bytes) (mime : String)
    (hart : meta.artwork_file = some ab) (hne : ab ≠ [])
    (hmime : get_mime_type codec ab = .ok mime) :
    (file.variant = .flac →
      (assemble_metadata codec file meta).1.pictures =
        [{ data := ab, mime := mime, desc := pyStrOrNone meta.artwork_url, ptype := 3 }]) ∧
    (file.variant = .mp3 ∨ file.variant = .aiff ∨ file.variant = .wave →
      Store.get (assemble_metadata codec file meta).1.id3 "APIC" =
        some (.apic mime (pyStrOrNone meta.artwork_url) ab) ∧
      Store.countKey (assemble_metadata codec file meta).1.id3 "APIC" = 1) ∧
    (file.variant = .mp4 →
      Store.get (assemble_metadata codec file meta).1.mp4 "covr" = some (.covr [ab]) ∧
      Store.countKey (assemble_metadata codec file meta).1.mp4 "covr" = 1) := by
  refine ⟨?_, ?_, ?_⟩
  · intro hv
    have hd : assemble_metadata codec file meta = assemble_flac codec file meta := by
      unfold assemble_metadata
      simp only [hv]
    rw [hd]
    unfold assemble_flac
    simp only [hart]
    rw [if_neg hne]
    rw [_get_flac_pic_ok codec ab meta mime hmime]
    simp only [List.nil_append]
  · intro hv
    have hd : assemble_metadata codec file meta = assemble_id3 codec file meta := by
      unfold assemble_metadata
      rcases hv with h | h | h <;> simp only [h]
    rw [hd]
    exact assemble_id3_artwork codec file meta ab mime hart hne hmime
  · intro hv
    have hd : assemble_metadata codec file meta = assemble_mp4 file meta := by
      unfold assemble_metadata
      simp only [hv]
    rw [hd]
    unfold assemble_mp4
    simp only []
    apply mp4_tags_covr _ meta ab hart hne
    by_cases hc : (Store.get file.mp4 "covr").isSome
    · rw [if_pos hc]
      exact Store.get_del_self _ _
    · rw [if_neg hc]
      exact Option.not_isSome_iff_eq_none.mp hc

/-- A metadata record carrying artwork bytes. -/
def mArt : MetadataInfo := { mAllNone with artwork_file := some [1] }

/-- A pre-existing cover picture used by the C9 witness containers. -/
def oldPic : FlacPicture := { data := [7], mime := "image/gif", desc := none, ptype := 3 }

/-- A FLAC container that already holds two embedded pictures. -/
def preFlac : TagContainer :=
  { variant := .flac, vorbis := [], pictures := [oldPic, oldPic], id3 := [], mp4 := [] }

/-- An MP3 container that already holds an APIC frame. -/
def preMp3 : TagContainer :=
  { variant := .mp3, vorbis := [], pictures := [],
    id3 := [("APIC", .apic "image/gif" none [7])], mp4 := [] }

/-- An MP4 container that already holds a covr atom. -/
def preMp4 : TagContainer :=
  { variant := .mp4, vorbis := [], pictures := [], id3 := [],
    mp4 := [("covr", .covr [[7]])] }

/-- C9 witness: concrete containers that already hold artwork end up with
exactly one cover after re-assembly with new artwork bytes. -/
theorem C9_artwork_replaced_not_appended_witness :
    mArt.artwork_file = some [1] ∧ ([1] : Bytes) ≠ [] ∧
    get_mime_type codecA [1] = .ok "image/jpeg" ∧
    (assemble_metadata codecA preFlac mArt).1.pictures =
      [{ data := [1], mime := "image/jpeg", desc := pyStrOrNone mArt.artwork_url, ptype := 3 }] ∧
    Store.get (assemble_metadata codecA preMp3 mArt).1.id3 "APIC" =
      some (.apic "image/jpeg" (pyStrOrNone mArt.artwork_url) [1]) ∧
    Store.countKey (assemble_metadata codecA preMp3 mArt).1.id3 "APIC" = 1 ∧
    Store.get (assemble_metadata codecA preMp4 mArt).1.mp4 "covr" = some (.covr [[1]]) ∧
    Store.countKey (assemble_metadata codecA preMp4 mArt).1.mp4 "covr" = 1 := by
  have hmime : get_mime_type codecA [1] = .ok "image/jpeg" := by decide
  have h1 := C9_artwork_replaced_not_appended codecA preFlac mArt [1] "image/jpeg" rfl
    (by decide) hmime
  have h2 := C9_artwork_replaced_not_appended codecA preMp3 mArt [1] "image/jpeg" rfl
    (by decide) hmime
  have h3 := C9_artwork_replaced_not_appended codecA preMp4 mArt [1] "image/jpeg" rfl
    (by decide) hmime
  exact ⟨rfl, by decide, hmime, h1.1 rfl, (h2.2.1 (Or.inl rfl)).1, (h2.2.1 (Or.inl rfl)).2,
    (h3.2.2 rfl).1, (h3.2.2 rfl).2⟩

theorem writeTruthyInt_zero {α : Type} (s : Store α) (k : String) (f : Int → α) :
    writeTruthyInt s k (some 0) f = s := by
  simp [writeTruthyInt]

theorem writeSomeInt_some {α : Type} (s : Store α) (k : String) (x : Int) (f : Int → α) :
    writeSomeInt s k (some x) f = Store.set s k (f x) := rfl

/-- C10: a `track_id` or `user_id` that is present but equal to 0 is
filtered by Python truthiness and produces no ID / ID User entry in any
variant family, whereas an `album_track_num` equal to 0 is filtered only
by `is not None` and is written (as the string "0" in the Vorbis and ID3
families, and as the pair (0, 0) in the MP4 family). -/
theorem C10_zero_id_truthiness (codec : Codec) (meta : MetadataInfo) :
    (meta.track_id = some 0 →
      Store.get (assemble_metadata codec (emptyContainer .flac) meta).1.vorbis "ID" = none ∧
      Store.get (assemble_metadata codec (emptyContainer .mp3) meta).1.id3 "TXXX:ID" = none ∧
      Store.get (assemble_metadata codec (emptyContainer .mp4) meta).1.mp4
        "----:com.apple.iTunes:ID" = none) ∧
    (meta.user_id = some 0 →
      Store.get (assemble_metadata codec (emptyContainer .flac) meta).1.vorbis "ID User" = none ∧
      Store.get (assemble_metadata codec (emptyContainer .mp3) meta).1.id3 "TXXX:ID User" = none ∧
      Store.get (assemble_metadata codec (emptyContainer .mp4) meta).1.mp4
        "----:com.apple.iTunes:ID User" = none) ∧
    (meta.album_track_num = some 0 →
      Store.get (assemble_metadata codec (emptyContainer .flac) meta).1.vorbis "Tracknumber" =
        some (some "0") ∧
      Store.get (assemble_metadata codec (emptyContainer .mp3) meta).1.id3 "TRCK" =
        some (.trck "0") ∧
      Store.get (assemble_metadata codec (emptyContainer .mp4) meta).1.mp4 "trkn" =
        some (.trkn [(0, 0)])) := by
  have hdispF : assemble_metadata codec (emptyContainer .flac) meta =
      assemble_flac codec (emptyContainer .flac) meta := rfl
  have hdisp3 : assemble_metadata codec (emptyContainer .mp3) meta =
      assemble_id3 codec (emptyContainer .mp3) meta := rfl
  have hdisp4 : assemble_metadata codec (emptyContainer .mp4) meta =
      assemble_mp4 (emptyContainer .mp4) meta := rfl
  have hA : (assemble_metadata codec (emptyContainer .flac) meta).1.vorbis =
      _assemble_vorbis_tags [] meta := by
    rw [hdispF, assemble_flac_vorbis]
    rfl
  have hB := assemble_id3_empty_shape codec .mp3 meta
  have hM : (assemble_mp4 (emptyContainer .mp4) meta).1.mp4 = mp4_tags [] meta :=
    assemble_mp4_empty .mp4 meta
  refine ⟨?_, ?_, ?_⟩
  · intro h
    refine ⟨?_, ?_, ?_⟩
    · rw [hA]
      simp [_assemble_vorbis_tags, h, writeTruthyInt_zero, get_writeTruthyStr_ne,
        get_writeSomeStr_ne, get_writeTruthyInt_ne, get_writeSomeInt_ne,
        Store.get_set_ne, Store.get]
    · rw [hdisp3]
      rcases hB with hb | ⟨fr, hb⟩ | hb <;> rw [hb] <;>
        simp [id3_txxx_tags, id3_base_tags, h, writeTruthyInt_zero, get_writeTruthyStr_ne,
          get_writeSomeStr_ne, get_writeTruthyInt_ne, get_writeSomeInt_ne,
          Store.get_set_ne, Store.get]
    · rw [hdisp4, hM]
      simp [mp4_tags, h, writeTruthyInt_zero, get_writeTruthyStr_ne, get_writeSomeStr_ne,
        get_writeTruthyInt_ne, get_writeSomeInt_ne, get_writeCovr_ne,
        Store.get_set_ne, Store.get]
  · intro h
    refine ⟨?_, ?_, ?_⟩
    · rw [hA]
      simp [_assemble_vorbis_tags, h, writeTruthyInt_zero, get_writeTruthyStr_ne,
        get_writeSomeStr_ne, get_writeTruthyInt_ne, get_writeSomeInt_ne,
        Store.get_set_ne, Store.get]
    · rw [hdisp3]
      rcases hB with hb | ⟨fr, hb⟩ | hb <;> rw [hb] <;>
        simp [id3_txxx_tags, id3_base_tags, h, writeTruthyInt_zero, get_writeTruthyStr_ne,
          get_writeSomeStr_ne, get_writeTruthyInt_ne, get_writeSomeInt_ne,
          Store.get_set_ne, Store.get]
    · rw [hdisp4, hM]
      simp [mp4_tags, h, writeTruthyInt_zero, get_writeTruthyStr_ne, get_writeSomeStr_ne,
        get_writeTruthyInt_ne, get_writeSomeInt_ne, get_writeCovr_ne,
        Store.get_set_ne, Store.get]
  · intro h
    refine ⟨?_, ?_, ?_⟩
    · rw [hA]
      simp [_assemble_vorbis_tags, h, writeSomeInt_some, get_writeTruthyStr_ne,
        get_writeSomeStr_ne, get_writeTruthyInt_ne, get_writeSomeInt_ne,
        Store.get_set_ne, Store.get_set_self, Store.get,
        show toString (0 : Int) = "0" from rfl]
    · rw [hdisp3]
      rcases hB with hb | ⟨fr, hb⟩ | hb <;> rw [hb] <;>
        simp [id3_txxx_tags, id3_base_tags, h, writeSomeInt_some, get_writeTruthyStr_ne,
          get_writeSomeStr_ne, get_writeTruthyInt_ne, get_writeSomeInt_ne,
          Store.get_set_ne, Store.get_set_self, Store.get,
          show toString (0 : Int) = "0" from rfl]
    · rw [hdisp4, hM]
      simp [mp4_tags, h, writeSomeInt_some, get_writeTruthyStr_ne, get_writeSomeStr_ne,
        get_writeTruthyInt_ne, get_writeSomeInt_ne, get_writeCovr_ne,
        Store.get_set_ne, Store.get_set_self, Store.get]

/-- A metadata record whose integer fields are present but zero. -/
def mZero : MetadataInfo :=
  { mAllNone with track_id := some 0, user_id := some 0, album_track_num := some 0 }

/-- C10 witness: with all three integer fields present and equal to 0, the
ID / ID User entries are absent and the track number entries are written. -/
theorem C10_zero_id_truthiness_witness :
    mZero.track_id = some 0 ∧ mZero.user_id = some 0 ∧ mZero.album_track_num = some 0 ∧
    Store.get (assemble_metadata codecA (emptyContainer .flac) mZero).1.vorbis "ID" = none ∧
    Store.get (assemble_metadata codecA (emptyContainer .mp3) mZero).1.id3 "TXXX:ID" = none ∧
    Store.get (assemble_metadata codecA (emptyContainer .flac) mZero).1.vorbis "ID User" =
      none ∧
    Store.get (assemble_metadata codecA (emptyContainer .flac) mZero).1.vorbis "Tracknumber" =
      some (some "0") ∧
    Store.get (assemble_metadata codecA (emptyContainer .mp3) mZero).1.id3 "TRCK" =
      some (.trck "0") ∧
    Store.get (assemble_metadata codecA (emptyContainer .mp4) mZero).1.mp4 "trkn" =
      some (.trkn [(0, 0)]) := by
  have H := C10_zero_id_truthiness codecA mZero
  exact ⟨rfl, rfl, rfl, (H.1 rfl).1, (H.1 rfl).2.1, (H.2.1 rfl).1, (H.2.2 rfl).1,
    (H.2.2 rfl).2.1, (H.2.2 rfl).2.2⟩
